import Mathlib

/-!
# Verification of the kestrel-lang command execution core

Shallow embedding of `src/kestrel/codegen/commands.py`: the command
executors (`GET`, `FIND`, `MERGE`, `DISP`, `SAVE`, `JOIN`, `GROUP`, `SORT`,
`APPLY`), the prefetch orchestrator `_prefetch`, the fine-grained process
filter `_filter_prefetched_process`, and the `_guard_empty_input` /
`_default_output` decorators.  External collaborators (pattern compiler,
relation compiler, datasource manager, analytics manager, the firepit
store's row-level behaviour) are modelled as an explicit record of oracle
functions (`Ext`); the store's view lifecycle (which views exist, with
what data) and the session state are modelled explicitly, since the claims
under verification are about control flow, error behaviour and the view
lifecycle of the executors, not about the collaborators' internals.
-/

set_option linter.unusedVariables false

namespace Kestrel

/-- A row of an entity table: an ordered dict from attribute names to
values (Python dicts as association lists).  The empty dict is `[]`. -/
abbrev Row := List (String × String)

/-- The data backing a store view: the entity type of the view, the
distinct-entity count, the record count, the originating datasource (if
any) and the rows.  What the underlying firepit store computes for a view
is supplied by the `Ext` oracles; commands only move this data around. -/
structure ViewData where
  vtype : Option String
  vlen : Nat
  vrecords : Nat
  vsource : Option String
  rows : List Row
deriving DecidableEq, Repr

/-- The relational store, as seen by the command executors: the set of
entity types it has seen, and the named views currently extant.  Raw
bundle loading (`load_to_store`) inserts records but creates no view, so
it does not appear here. -/
structure Store where
  stypes : List String
  views : List (String × ViewData)
deriving DecidableEq, Repr

def Store.getView? (st : Store) (v : String) : Option ViewData :=
  (st.views.find? (fun p => p.1 == v)).map (·.2)

def Store.hasView (st : Store) (v : String) : Bool :=
  (st.getView? v).isSome

/-- Create or replace a view. -/
def Store.setView (st : Store) (v : String) (d : ViewData) : Store :=
  { st with views := (v, d) :: st.views.filter (fun p => p.1 != v) }

/-- `store.remove_view(v)` — idempotent removal. -/
def Store.remove_view (st : Store) (v : String) : Store :=
  { st with views := st.views.filter (fun p => p.1 != v) }

/-- `store.rename_view(old, new)` — the view data moves to the new name;
the old name is gone afterwards. -/
def Store.rename_view (st : Store) (old new : String) : Store :=
  match st.getView? old with
  | some d => (st.remove_view old).setView new d
  | none => st

def removeViews (st : Store) (vs : List String) : Store :=
  vs.foldl Store.remove_view st

/-- `VarStruct` — the first-class variable descriptor (§3 of the spec):
entity type, backing view (`none` for an empty variable), distinct entity
count, record count, originating datasource. -/
structure VarStruct where
  vtype : Option String
  entity_table : Option String
  vlen : Nat
  records_count : Nat
  data_source : Option String
deriving DecidableEq, Repr

def emptyVar : VarStruct :=
  { vtype := none, entity_table := none, vlen := 0, records_count := 0, data_source := none }

/-- The symbol table: variable name to `VarStruct` (a Python dict). -/
abbrev Symtable := List (String × VarStruct)

def lookupVar? (symt : Symtable) (n : String) : Option VarStruct :=
  (symt.find? (fun p => p.1 == n)).map (·.2)

/-- Total lookup used where the code indexes `symtable[name]` at a key it
has itself just inserted (so the default case is unreachable there). -/
def lookupVar (symt : Symtable) (n : String) : VarStruct :=
  (lookupVar? symt n).getD emptyVar

/-- Dict assignment: rebinding replaces the previous binding. -/
def insertVar (symt : Symtable) (n : String) (v : VarStruct) : Symtable :=
  (n, v) :: symt.filter (fun p => p.1 != n)

/-- The exceptions of `kestrel.exceptions` reachable from the embedded
code.  A Python `KeyError` on a symbol-table index is modelled as
`VariableNotExist` (the session layer maps unbound names to it). -/
inductive KErr where
  | EmptyInputVariable (varname : String)
  | NonUniformEntityType (types : List (Option String))
  | InvalidAttribute
  | VariableNotExist (varname : String)
  | KestrelInternalError (msg : String)
deriving DecidableEq, Repr

/-- `START t1 STOP t2` or absent. -/
abbrev TimeRange := Option (String × String)

/-- Log of queries issued to the datasource manager: (datasource URI,
STIX pattern).  Used to state that a branch issues no remote query. -/
abbrev QLog := List (Option String × Option String)

/-- A store query composed by the GROUP executor:
`Table(input) → Group(paths) → Aggregation(aggs?)`. -/
structure KQuery where
  table : Option String
  paths : List String
  aggs : Option (List (String × String × String))
deriving DecidableEq, Repr

/-- Tabular / dict / HTML display artifacts returned by executors. -/
structure RenderedTracking where
  step_count : String
  var_count : String
  step_dt : String
  var_dt : String
  paths : List (List String)
deriving DecidableEq, Repr

inductive Display where
  | dict (d : List (String × String))
  | dataframe (rows : List Row)
  | html (r : RenderedTracking)
deriving DecidableEq, Repr

/-- The execution-tracking graph: nodes are statements and variables,
edges record data dependencies (`nx.DiGraph`). -/
structure DiGraph where
  nodes : List String
  edges : List (String × String)
deriving DecidableEq, Repr

def inDegree (g : DiGraph) (n : String) : Nat :=
  (g.edges.filter (fun e => e.2 == n)).length

def outDegree (g : DiGraph) (n : String) : Nat :=
  (g.edges.filter (fun e => e.1 == n)).length

/-- `session.execution_tracking`: the graph plus the recorded
per-step/per-variable timing payloads (kept opaque, pre-serialization). -/
structure ExecTracking where
  graph : DiGraph
  step_times : String
  var_times : String
  step_timestamp : String
  var_summary : String
deriving DecidableEq, Repr

/-- The session context threaded through every executor: store, symbol
table, configuration toggles, debug mode, tracking state, and the log of
datasource queries issued so far. -/
structure Session where
  store : Store
  symtable : Symtable
  debug_mode : Bool
  prefetch_get : Bool
  prefetch_find : Bool
  support_id : Bool
  start_offset : Int
  end_offset : Int
  prefetch_config : List (String × String)
  session_id : Nat
  execution_tracking : Option ExecTracking
  issued : QLog
deriving DecidableEq, Repr

/-- Oracle record for the external collaborators of `commands.py`
(`kestrel.codegen.pattern`, `kestrel.codegen.relations`, the datasource
manager, the analytics manager, and the row-level behaviour of the
firepit store).  The executors call these as black boxes; the claims
quantify over every possible behaviour of them.  `build_pattern` may
raise `InvalidAttribute` (the only exception the executors catch), so it
is `Except`-valued; the error payload is irrelevant and kept as `Unit`. -/
structure Ext where
  build_pattern : Option String → TimeRange → Int → Int → Symtable → Store → Except Unit (Option String)
  query : Option String → Option String → Nat → Nat
  extract_data : String → String → Option Nat → Option String → ViewData
  merge_data : String → List (Option String) → ViewData
  filter_data : String → String → Option String → Option String → ViewData
  join_data : String → Option String → String → Option String → String → ViewData
  assign_data : String → Option String → String → String → Bool → ViewData
  assign_query_data : String → KQuery → ViewData
  lookup : Store → String → Option String → Option Nat → List Row
  compile_generic_relation_to_pattern : String → Option String → String → Option String
  compile_specific_relation_to_pattern : String → String → Option String → Bool → String → Option String
  compile_identical_entity_search_pattern : String → VarStruct → Bool → Option String
  compile_x_ibm_event_search_flow_in_pattern : Option String → String → Option String
  compile_x_ibm_event_search_flow_out_pattern : String → String → Option String
  are_entities_associated_with_x_ibm_event : List (Option String) → Bool
  get_entity_id_attribute : VarStruct → String
  fine_grained_relational_process_filtering : VarStruct → Option String → Store → List (String × String) → List String
  analytics_execute : String → List VarStruct → Nat → List (String × String) → Display
  json_dumps : String → String

/-- `store.extract(view, type, query_id, pattern)` — creates (or
replaces) the named view; the resulting view data is whatever the store
computes for these arguments, supplied by the oracle. -/
def Store.extract (st : Store) (view etype : String) (query_id : Option Nat)
    (pattern : Option String) (ext : Ext) : Store :=
  st.setView view (ext.extract_data view etype query_id pattern)

/-- `store.merge(view, [views])`. -/
def Store.merge (st : Store) (view : String) (tables : List (Option String)) (ext : Ext) : Store :=
  st.setView view (ext.merge_data view tables)

/-- `store.filter(view, type, source_view, pattern)`. -/
def Store.filter (st : Store) (view etype : String) (src pattern : Option String) (ext : Ext) : Store :=
  st.setView view (ext.filter_data view etype src pattern)

/-- `store.join(view, l, l_path, r, r_path)`. -/
def Store.join (st : Store) (view : String) (l : Option String) (lpath : String)
    (r : Option String) (rpath : String) (ext : Ext) : Store :=
  st.setView view (ext.join_data view l lpath r rpath)

/-- `store.assign(view, src, op="sort", by, ascending)`. -/
def Store.assign (st : Store) (view : String) (src : Option String) (op by_ : String)
    (ascending : Bool) (ext : Ext) : Store :=
  st.setView view (ext.assign_data view src op by_ ascending)

/-- `store.assign_query(view, query)`. -/
def Store.assign_query (st : Store) (view : String) (q : KQuery) (ext : Ext) : Store :=
  st.setView view (ext.assign_query_data view q)

/-- `ds_manager.query(...)` followed by `resp.load_to_store(store)`:
returns the query id and logs the issued query.  Loading the raw bundle
creates no view, so the `Store` is untouched. -/
def dsQuery (ext : Ext) (data_source pattern : Option String) (qlog : QLog)
    (session_id : Nat) : Nat × QLog :=
  (ext.query data_source pattern session_id, qlog ++ [(data_source, pattern)])

/-- Modelled from the spec: `or_patterns` of `kestrel.codegen.pattern`
(not under src/) — "yields the disjunction, dropping `None` entries;
returns `None` iff all entries are `None`" (§4.1). -/
def or_patterns (ps : List (Option String)) : Option String :=
  match ps.filterMap id with
  | [] => none
  | xs => some (String.intercalate " OR " xs)

/-- Modelled from the spec: `build_pattern_from_ids` of
`kestrel.codegen.pattern` (not under src/) — "produces
`[entity_type:id IN (…)]` or `None` if the id set is empty" (§4.1). -/
def build_pattern_from_ids (entity_type : String) (ids : List String) : Option String :=
  if ids.isEmpty then none
  else some ("[" ++ entity_type ++ ":id IN (" ++ String.intercalate "," ids ++ ")]")

/-- Modelled from the spec: `new_var` of `kestrel.symboltable` (not under
src/) — builds the `VarStruct` for a view name: `entity_table = None`
yields an empty variable; otherwise the descriptor reflects the extant
view's data (§3: "A non-empty VarStruct has entity_table naming an
extant view in the store"). -/
def new_var (store : Store) (entity_table : Option String) : VarStruct :=
  match entity_table with
  | none => emptyVar
  | some t =>
    match store.getView? t with
    | some d =>
      { vtype := d.vtype, entity_table := some t, vlen := d.vlen,
        records_count := d.vrecords, data_source := d.vsource }
    | none => { emptyVar with entity_table := some t }

/-- Modelled from the spec: `get_entity_table` of `kestrel.semantics`
(not under src/) — `VariableNotExist` on an unbound name, else the
variable's entity table (§7). -/
def get_entity_table (n : String) (symt : Symtable) : Except KErr (Option String) :=
  match lookupVar? symt n with
  | none => .error (.VariableNotExist n)
  | some v => .ok v.entity_table

/-- Modelled from the spec: `get_entity_type` of `kestrel.semantics`
(not under src/) — `VariableNotExist` on an unbound name, else the
variable's entity type. -/
def get_entity_type (n : String) (symt : Symtable) : Except KErr (Option String) :=
  match lookupVar? symt n with
  | none => .error (.VariableNotExist n)
  | some v => .ok v.vtype

/-- Modelled from the spec: `generic_relations` of
`kestrel.codegen.relations` (not under src/) — the small closed set of
type-pair-driven relations (§4.2, Glossary: `linked`, `contained`). -/
def generic_relations : List String := ["linked", "contained"]

/-- Modelled from the spec: `remove_empty_dicts` of `kestrel.utils` (not
under src/) — drops empty rows (§4.3.4). -/
def remove_empty_dicts (rows : List Row) : List Row :=
  rows.filter (fun r => r ≠ [])

def dedupOrderedAux {α : Type} [DecidableEq α] (seen : List α) : List α → List α
  | [] => []
  | r :: rs =>
    if r ∈ seen then dedupOrderedAux seen rs
    else r :: dedupOrderedAux (r :: seen) rs

/-- Modelled from the spec: `dedup_ordered_dicts` of `kestrel.utils` (not
under src/) — drops duplicate rows, keeping the first occurrence of each
row in order (§4.3.4). -/
def dedup_ordered_dicts (rows : List Row) : List Row :=
  dedupOrderedAux [] rows

/-- First-occurrence deduplication, standing in for Python's
`list(set(xs))` (whose order is arbitrary; every use in the embedded code
is order-insensitive). -/
def dedupStr (xs : List String) : List String :=
  dedupOrderedAux [] xs

/-! ## Statements

§9 of the spec: "model the statement as a tagged union with one variant
per command and a per-variant payload".  Fields genuinely optional in the
parser's mapping (`variablesource`, `datasource`, `aggregations`) are
`Option`-typed; the rest are the fields each executor unconditionally
indexes. -/

structure GetStmt where
  output : String
  etype : String
  patternbody : Option String
  timerange : TimeRange
  datasource : Option String
  variablesource : Option String
deriving DecidableEq, Repr

structure FindStmt where
  output : String
  etype : String
  input : String
  relation : String
  reversed : Bool
  timerange : TimeRange
deriving DecidableEq, Repr

structure MergeStmt where
  output : String
  inputs : List String
deriving DecidableEq, Repr

structure DispStmt where
  input : String
  attrs : Option String
  limit : Option Nat
deriving DecidableEq, Repr

structure SaveStmt where
  input : String
  path : String
deriving DecidableEq, Repr

structure JoinStmt where
  output : String
  input : String
  path : String
  input_2 : String
  path_2 : String
deriving DecidableEq, Repr

structure GroupStmt where
  output : String
  input : String
  paths : List String
  aggregations : Option (List (String × String × String))
deriving DecidableEq, Repr

structure SortStmt where
  output : String
  input : String
  path : String
  ascending : Bool
deriving DecidableEq, Repr

structure ApplyStmt where
  workflow : String
  inputs : List String
  parameter : List (String × String)
deriving DecidableEq, Repr

/-! ## Decorators -/

/-- The check performed by the `_guard_empty_input` decorator: walk the
input variable names in order; an unbound name is a symbol-table
`KeyError` (surfaced as `VariableNotExist`); a bound variable `v` with
`v.length + v.records_count == 0` raises `EmptyInputVariable`. -/
def guardCheck (symt : Symtable) : List String → Option KErr
  | [] => none
  | n :: rest =>
    match lookupVar? symt n with
    | none => some (.VariableNotExist n)
    | some v =>
      if v.vlen + v.records_count = 0 then some (.EmptyInputVariable n)
      else guardCheck symt rest

/-- `_guard_empty_input`: raise before the wrapped executor body runs if
any input variable is empty; otherwise run the body (the body is a thunk:
it is not evaluated when the guard raises). -/
def guardEmptyInput {α : Type} (inputs : List String) (symt : Symtable)
    (body : Unit → Except KErr α) : Except KErr α :=
  match guardCheck symt inputs with
  | some e => .error e
  | none => body ()

/-- The executor result: the optional new `VarStruct` and the optional
display. -/
abbrev CmdRet := Option VarStruct × Option Display

/-- `_default_output`: when the wrapped executor body returned nothing
(Python `None`, modelled by the inner `Option` being `none`), construct
the output variable from `stmt["output"]` by opening a view on the
store. -/
def defaultOutput (output : String) (r : Except KErr (Session × Option CmdRet)) :
    Except KErr (Session × CmdRet) :=
  match r with
  | .error e => .error e
  | .ok (s1, some ret) => .ok (s1, ret)
  | .ok (s1, none) => .ok (s1, (some (new_var s1.store (some output)), none))

/-- Modelled from the spec: the session layer around each executor (§5,
"The symbol table is owned by the session and mutated only through
`new_var`"; §2, the executor "publishes a new symbol-table entry") —
when the executor raises, the session state is left as it was; when it
returns a `VarStruct`, the output name is bound to it. -/
def runStatementWithGuard (inputs : List String) (output : Option String) (s : Session)
    (body : Unit → Except KErr (Session × CmdRet)) : Session × Except KErr CmdRet :=
  match guardEmptyInput inputs s.symtable body with
  | .error e => (s, .error e)
  | .ok (s1, (some v, d)) =>
    match output with
    | some o => ({ s1 with symtable := insertVar s1.symtable o v }, .ok (some v, d))
    | none => (s1, .ok (some v, d))
  | .ok (s1, (none, d)) => (s1, .ok (none, d))

/-! ## Helper functions of commands.py -/

/-- `_prefetch` (commands.py lines 612-685): compile an identical-entity
search pattern for the input; build the remote pattern; on success query
the input's datasource, load the response, and extract `return_var_name`
over the loaded rows; return the view name, else `None`.  The uncaught
`InvalidAttribute` from `build_pattern` propagates to the caller. -/
def prefetch (ext : Ext) (return_type return_var_name input_var_name : String)
    (time_range : TimeRange) (start_offset end_offset : Int)
    (symtable : Symtable) (store : Store) (qlog : QLog)
    (session_id : Nat) (does_support_id : Bool) :
    Except Unit (Store × QLog × Option String) :=
  let ivar := lookupVar symtable input_var_name
  match ext.compile_identical_entity_search_pattern input_var_name ivar does_support_id with
  | none => .ok (store, qlog, none)
  | some pattern_body =>
    match ext.build_pattern (some pattern_body) time_range start_offset end_offset symtable store with
    | .error e => .error e
    | .ok none => .ok (store, qlog, none)
    | .ok (some remote_pattern) =>
      let data_source := ivar.data_source
      let (query_id, qlog1) := dsQuery ext data_source (some remote_pattern) qlog session_id
      let store1 := store.extract return_var_name return_type (some query_id) (some remote_pattern) ext
      .ok (store1, qlog1, some return_var_name)

/-- `_filter_prefetched_process` (commands.py lines 688-708): score the
prefetched rows against the local entities, build an id-pattern over the
surviving entity ids, and extract it into
`<return_var_name>_prefetch_filtered`; `None` when no id survives. -/
def filter_prefetched_process (ext : Ext) (return_var_name : String)
    (prefetch_config : List (String × String)) (store : Store)
    (local_var : VarStruct) (prefetched_entity_table : Option String)
    (return_type : String) : Store × Option String :=
  let prefetch_filtered_var_name := return_var_name ++ "_prefetch_filtered"
  let entity_ids := ext.fine_grained_relational_process_filtering
    local_var prefetched_entity_table store prefetch_config
  match build_pattern_from_ids return_type entity_ids with
  | some id_pattern =>
    (store.extract prefetch_filtered_var_name return_type none (some id_pattern) ext,
     some prefetch_filtered_var_name)
  | none => (store, none)

/-- The prefetch-and-filter block shared verbatim by `get` (lines
326-351) and `find` (lines 486-521): when enabled, run `_prefetch` with
the one-entry symbol table `{local_var_table: _output}`, then, when the
return type is `process` and the local view's identity attribute is not
`id`, replace the prefetch result by the fine-grained process filter's
result.  `enabled` is the caller's condition (`prefetch.get and
len(_output)` for GET; `prefetch.find and len(_output) and
_output.data_source` for FIND). -/
def prefetchFilterChain (ext : Ext) (enabled : Bool)
    (return_type return_var_table local_var_table : String)
    (time_range : TimeRange) (start_offset end_offset : Int)
    (localOut : VarStruct) (store : Store) (qlog : QLog)
    (session_id : Nat) (support_id : Bool)
    (prefetch_config : List (String × String)) :
    Except Unit (Store × QLog × Option String) :=
  if enabled then
    match prefetch ext return_type (return_var_table ++ "_prefetch") local_var_table
        time_range start_offset end_offset [(local_var_table, localOut)]
        store qlog session_id support_id with
    | .error e => .error e
    | .ok (store2, qlog2, pres) =>
      if return_type = "process" ∧ ext.get_entity_id_attribute localOut ≠ "id" then
        let (store3, pf) := filter_prefetched_process ext return_var_table prefetch_config
          store2 localOut pres return_type
        .ok (store3, qlog2, pf)
      else .ok (store2, qlog2, pres)
  else .ok (store, qlog, none)

/-- The merge-and-cleanup epilogue shared verbatim by `get` (lines
353-372) and `find` (lines 523-546): when the prefetch pipeline yielded
an entity table, merge it with `<output>_local` into `<output>` and, when
not in debug mode, remove `list(set([local, prefetched table, prefetch
var table]))`; otherwise rename `<output>_local` to `<output>` in
place. -/
def mergeCleanupStep (ext : Ext) (debug_mode : Bool)
    (return_var_table local_var_table prefetch_ret_var_table : String)
    (prefetch_ret_entity_table : Option String) (store : Store) : Store :=
  match prefetch_ret_entity_table with
  | some t =>
    let store1 := store.merge return_var_table [some local_var_table, some t] ext
    if debug_mode then store1
    else removeViews store1 (dedupStr [local_var_table, t, prefetch_ret_var_table])
  | none => store.rename_view local_var_table return_var_table

/-! ## GET (commands.py lines 286-379) -/

/-- The `get` executor: compile the pattern; in variable-source mode
filter the source variable's view into `<output>`; in datasource mode
query the datasource, extract `<output>_local`, run the prefetch/filter
chain and the merge/cleanup epilogue; raise `KestrelInternalError` when
neither source field is present. -/
def get (ext : Ext) (stmt : GetStmt) (s : Session) : Except KErr (Session × VarStruct) :=
  let local_var_table := stmt.output ++ "_local"
  let return_var_table := stmt.output
  let return_type := stmt.etype
  match ext.build_pattern stmt.patternbody stmt.timerange s.start_offset s.end_offset
      s.symtable s.store with
  | .error _ => .error .InvalidAttribute
  | .ok pattern =>
    match stmt.variablesource with
    | some vsrc =>
      match get_entity_table vsrc s.symtable with
      | .error e => .error e
      | .ok src_table =>
        let store1 := s.store.filter stmt.output stmt.etype src_table pattern ext
        let output := new_var store1 (some return_var_table)
        .ok ({ s with store := store1 }, output)
    | none =>
      match stmt.datasource with
      | some ds =>
        let (query_id, qlog1) := dsQuery ext (some ds) pattern s.issued s.session_id
        let store1 := s.store.extract local_var_table return_type (some query_id) pattern ext
        let localOut := new_var store1 (some local_var_table)
        match prefetchFilterChain ext (s.prefetch_get && localOut.vlen != 0)
            return_type return_var_table local_var_table stmt.timerange
            s.start_offset s.end_offset localOut store1 qlog1
            s.session_id s.support_id s.prefetch_config with
        | .error _ => .error .InvalidAttribute
        | .ok (store2, qlog2, pret) =>
          let store3 := mergeCleanupStep ext s.debug_mode return_var_table local_var_table
            (return_var_table ++ "_prefetch") pret store2
          let output := new_var store3 (some return_var_table)
          .ok ({ s with store := store3, issued := qlog2 }, output)
      | none => .error (.KestrelInternalError "unknown type of source")

/-! ## FIND (commands.py lines 382-554) -/

/-- The optional event-mediated branch of `find` (lines 414-457): compile
and build the event-in pattern, extract the events into
`<output>_asso_event`, register that view in the local symbol table,
build the event-out pattern over it, and remove the temporary event view
unless in debug mode.  `InvalidAttribute` raised anywhere inside is
caught and leaves `event_pattern = None` — with whatever store and
symbol-table mutations had already happened (in particular, when the
second `build_pattern` raises, the `<output>_asso_event` view has been
created and is never removed). -/
def findEventBranch (ext : Ext) (output return_type input_var_name : String)
    (input_type : Option String) (time_range : TimeRange)
    (start_offset end_offset : Int) (debug_mode : Bool)
    (symt : Symtable) (store : Store) : Store × Symtable × Option String :=
  let local_var_event_name := output ++ "_asso_event"
  let event_in_pattern_body :=
    ext.compile_x_ibm_event_search_flow_in_pattern input_type input_var_name
  match ext.build_pattern event_in_pattern_body time_range start_offset end_offset symt store with
  | .error _ => (store, symt, none)
  | .ok event_in_pattern =>
    let store1 := store.extract local_var_event_name "x-oca-event" none event_in_pattern ext
    let symt1 := insertVar symt local_var_event_name (new_var store1 (some local_var_event_name))
    let event_out_pattern_body :=
      ext.compile_x_ibm_event_search_flow_out_pattern return_type local_var_event_name
    match ext.build_pattern event_out_pattern_body time_range start_offset end_offset symt1 store1 with
    | .error _ => (store1, symt1, none)
    | .ok event_pattern =>
      let store2 := if debug_mode then store1 else store1.remove_view local_var_event_name
      (store2, symt1, event_pattern)

/-- Pattern preparation of `find` (lines 404-475): build the raw pattern
body (generic compilation for a generic relation, with the optional
event-mediated branch when an `x-oca-event` table exists, both types
associate with events and the types differ; specific compilation
otherwise), build the local pattern from it under the timerange window
(falling back to `None` on `InvalidAttribute`), and OR-combine it with
the event pattern.  Returns the store and local symbol table as mutated
by the event branch, and the final local pattern. -/
def findPatternPrep (ext : Ext) (stmt : FindStmt) (s : Session) :
    Store × Symtable × Option String :=
  let input_type := (lookupVar s.symtable stmt.input).vtype
  let symt0 : Symtable := [(stmt.input, lookupVar s.symtable stmt.input)]
  if generic_relations.contains stmt.relation then
    let raw_pattern_body :=
      ext.compile_generic_relation_to_pattern stmt.etype input_type stmt.input
    let (store1, symt1, event_pattern) :=
      if s.store.stypes.contains "x-oca-event"
          && ext.are_entities_associated_with_x_ibm_event [input_type, some stmt.etype]
          && (input_type != some stmt.etype) then
        findEventBranch ext stmt.output stmt.etype stmt.input input_type stmt.timerange
          s.start_offset s.end_offset s.debug_mode symt0 s.store
      else (s.store, symt0, none)
    let local_pattern0 :=
      match ext.build_pattern raw_pattern_body stmt.timerange s.start_offset s.end_offset
          symt1 store1 with
      | .error _ => none
      | .ok p => p
    (store1, symt1, or_patterns [local_pattern0, event_pattern])
  else
    let raw_pattern_body :=
      ext.compile_specific_relation_to_pattern stmt.etype stmt.relation input_type
        stmt.reversed stmt.input
    let local_pattern0 :=
      match ext.build_pattern raw_pattern_body stmt.timerange s.start_offset s.end_offset
          symt0 s.store with
      | .error _ => none
      | .ok p => p
    (s.store, symt0, or_patterns [local_pattern0, none])

/-- The `find` executor body (inside its decorators): when the return
type has never been seen in the store, or when the final local pattern is
`None`, bind an empty variable (entity table `None`) and return; else
extract `<output>_local` with the pattern, run the prefetch/filter chain
(prefetch requires `prefetch.find`, a non-empty local view and a
datasource on it) and the merge/cleanup epilogue. -/
def find (ext : Ext) (stmt : FindStmt) (s : Session) : Except KErr (Session × VarStruct) :=
  if ¬ (s.store.stypes.contains stmt.etype) then
    .ok (s, new_var s.store none)
  else
    match findPatternPrep ext stmt s with
    | (store1, _symt1, local_pattern) =>
      match local_pattern with
      | some lp =>
        let local_var_table := stmt.output ++ "_local"
        let store2 := store1.extract local_var_table stmt.etype none (some lp) ext
        let localOut := new_var store2 (some local_var_table)
        match prefetchFilterChain ext
            (s.prefetch_find && localOut.vlen != 0 && localOut.data_source.isSome)
            stmt.etype stmt.output local_var_table stmt.timerange
            s.start_offset s.end_offset localOut store2 s.issued
            s.session_id s.support_id s.prefetch_config with
        | .error _ => .error .InvalidAttribute
        | .ok (store3, qlog3, pret) =>
          let store4 := mergeCleanupStep ext s.debug_mode stmt.output local_var_table
            (stmt.output ++ "_prefetch") pret store3
          let output := new_var store4 (some stmt.output)
          .ok ({ s with store := store4, issued := qlog3 }, output)
      | none =>
        .ok ({ s with store := store1 }, new_var store1 none)

/-- Modelled from the spec: `get_all_input_var_names` of
`kestrel.syntax.parser` (not under src/) applied to a FIND statement —
the single `input` field. -/
def findInputNames (stmt : FindStmt) : List String := [stmt.input]

/-- The full FIND statement as executed by the session: the
`_guard_empty_input` and `_default_output` decorators around the body
(`find` always returns a pair, so `_default_output` never fires for it),
then the session binds the output name to the returned `VarStruct`. -/
def executeFind (ext : Ext) (stmt : FindStmt) (s : Session) :
    Session × Except KErr CmdRet :=
  runStatementWithGuard (findInputNames stmt) (some stmt.output) s
    (fun _ =>
      defaultOutput stmt.output
        (match find ext stmt s with
         | .error e => .error e
         | .ok (s1, v) => .ok (s1, some (some v, none))))

/-- The full GET statement as executed by the session (GET is not
guarded; it binds the returned output variable). -/
def executeGet (ext : Ext) (stmt : GetStmt) (s : Session) :
    Session × Except KErr CmdRet :=
  runStatementWithGuard [] (some stmt.output) s
    (fun _ =>
      match get ext stmt s with
      | .error e => .error e
      | .ok (s1, v) => .ok (s1, (some v, none)))

/-! ## MERGE (commands.py lines 103-118) -/

/-- Sequence a lookup over the inputs, propagating the first error (the
Python list comprehension raises at the first failing element). -/
def mapExcept {α : Type} (f : String → Except KErr α) : List String → Except KErr (List α)
  | [] => .ok []
  | x :: xs =>
    match f x with
    | .error e => .error e
    | .ok a =>
      match mapExcept f xs with
      | .error e => .error e
      | .ok as => .ok (a :: as)

/-- First-occurrence deduplication over entity types, standing in for
`list(set(...))` (only the underlying set matters in `merge`). -/
def dedupOptStr (xs : List (Option String)) : List (Option String) :=
  dedupOrderedAux [] xs

/-- The `merge` executor body: collect the distinct entity types of the
inputs, raise `NonUniformEntityType` when there is more than one, else
`store.merge(output, entity_tables)` and build the output variable. -/
def merge (ext : Ext) (stmt : MergeStmt) (s : Session) : Except KErr (Session × VarStruct) :=
  match mapExcept (fun n => get_entity_type n s.symtable) stmt.inputs with
  | .error e => .error e
  | .ok tys =>
    let entity_types := dedupOptStr tys
    if 1 < entity_types.length then .error (.NonUniformEntityType entity_types)
    else
      match mapExcept (fun n => get_entity_table n s.symtable) stmt.inputs with
      | .error e => .error e
      | .ok entity_tables =>
        let store1 := s.store.merge stmt.output entity_tables ext
        .ok ({ s with store := store1 }, new_var store1 (some stmt.output))

/-- The full MERGE statement as executed by the session (MERGE is not
guarded; it binds the returned output variable). -/
def executeMerge (ext : Ext) (stmt : MergeStmt) (s : Session) :
    Session × Except KErr CmdRet :=
  runStatementWithGuard [] (some stmt.output) s
    (fun _ =>
      match merge ext stmt s with
      | .error e => .error e
      | .ok (s1, v) => .ok (s1, (some v, none)))

/-! ## DISP (commands.py lines 247-283) -/

def successors (g : DiGraph) (n : String) : List String :=
  (g.edges.filter (fun e => e.1 == n)).map (·.2)

/-- Modelled from the spec: `nx.all_simple_paths` (networkx, external) —
depth-first enumeration of the simple paths from `cur` to `target`,
avoiding `visited` (which always contains `cur`); `fuel` bounds the path
length (a simple path has at most `|nodes|` nodes).  The `cur = target`
base case is unreachable from `disp`, whose roots and leaves are
disjoint. -/
def simplePathsAux (g : DiGraph) (target : String) :
    Nat → String → List String → List (List String)
  | 0, _, _ => []
  | fuel + 1, cur, visited =>
    if cur = target then [[cur]]
    else
      ((successors g cur).filter (fun m => ¬ (m ∈ visited))).flatMap
        (fun m => (simplePathsAux g target fuel m (m :: visited)).map (cur :: ·))

def allSimplePaths (g : DiGraph) (src target : String) : List (List String) :=
  simplePathsAux g target g.nodes.length src [src]

/-- The root list computed by `disp` over the tracking graph (line 258):
nodes with no in-edges, in node order. -/
def trackingRoots (g : DiGraph) : List String :=
  g.nodes.filter (fun n => inDegree g n == 0)

/-- The leaf list computed by `disp` over the tracking graph (line 260):
because of the `elif`, a node is appended to `leaves` only when its
in-degree is nonzero and its out-degree is zero — an isolated node goes
to `roots`, not `leaves`. -/
def trackingLeaves (g : DiGraph) : List String :=
  g.nodes.filter (fun n => inDegree g n != 0 && outDegree g n == 0)

/-- Lines 262-265: for each root, for each leaf, every simple path. -/
def dispTrackingPaths (g : DiGraph) : List (List String) :=
  (trackingRoots g).flatMap (fun root =>
    (trackingLeaves g).flatMap (fun leaf => allSimplePaths g root leaf))

/-- Lines 267-273: the template interpolation — in order,
`json.dumps(step_times)`, `json.dumps(var_times)`,
`json.dumps(step_timestamp)`, `json.dumps(var_summary)` and the raw path
list (the HTML string itself is display rendering; the record keeps the
interpolated values). -/
def renderTracking (ext : Ext) (tr : ExecTracking) : RenderedTracking :=
  { step_count := ext.json_dumps tr.step_times
    var_count := ext.json_dumps tr.var_times
    step_dt := ext.json_dumps tr.step_timestamp
    var_dt := ext.json_dumps tr.var_summary
    paths := dispTrackingPaths tr.graph }

/-- The `disp` executor: the sentinel `_` with execution tracking enabled
renders the tracking graph; otherwise look the variable's entity table up
in the store (an unbound name is a `KeyError`, surfaced as
`VariableNotExist`; an empty variable contributes no rows) and
post-process by dropping empty rows then duplicate rows. -/
def disp (ext : Ext) (stmt : DispStmt) (s : Session) : Except KErr CmdRet :=
  match stmt.input == "_", s.execution_tracking with
  | true, some tr => .ok (none, some (.html (renderTracking ext tr)))
  | _, _ =>
    match lookupVar? s.symtable stmt.input with
    | none => .error (.VariableNotExist stmt.input)
    | some v =>
      let content :=
        match v.entity_table with
        | some et => ext.lookup s.store et stmt.attrs stmt.limit
        | none => []
      .ok (none, some (.dataframe (dedup_ordered_dicts (remove_empty_dicts content))))

/-! ## SAVE / JOIN / GROUP / SORT / APPLY (commands.py lines 135-604)

Each body is given inside its decorators below (`runGuarded`).  A body
returning `none` models a Python executor that falls off the end without
a `return` statement (then `_default_output` constructs the output
variable); `some ret` models an explicit `return`. -/

/-- `save`: export the input's entity table (`dump_data_to_file` is an
on-disk side effect outside the session state); returns
`(None, None)`. -/
def save (ext : Ext) (stmt : SaveStmt) (s : Session) :
    Except KErr (Session × Option CmdRet) :=
  match get_entity_table stmt.input s.symtable with
  | .error e => .error e
  | .ok _ => .ok (s, some (none, none))

/-- `join`: `store.join(output, left, left_path, right, right_path)`;
no explicit return. -/
def join (ext : Ext) (stmt : JoinStmt) (s : Session) :
    Except KErr (Session × Option CmdRet) :=
  match get_entity_table stmt.input s.symtable with
  | .error e => .error e
  | .ok t1 =>
    match get_entity_table stmt.input_2 s.symtable with
    | .error e => .error e
    | .ok t2 =>
      .ok ({ s with store := s.store.join stmt.output t1 stmt.path t2 stmt.path_2 ext }, none)

/-- `group`: compose `Table(input) → Group(paths) → Aggregation(aggs?)`
and `store.assign_query(output, query)`; no explicit return. -/
def group (ext : Ext) (stmt : GroupStmt) (s : Session) :
    Except KErr (Session × Option CmdRet) :=
  match get_entity_table stmt.input s.symtable with
  | .error e => .error e
  | .ok t =>
    let q : KQuery := { table := t, paths := stmt.paths, aggs := stmt.aggregations }
    .ok ({ s with store := s.store.assign_query stmt.output q ext }, none)

/-- `sort`: `store.assign(output, input, op="sort", by=path,
ascending)`; no explicit return. -/
def sort (ext : Ext) (stmt : SortStmt) (s : Session) :
    Except KErr (Session × Option CmdRet) :=
  match get_entity_table stmt.input s.symtable with
  | .error e => .error e
  | .ok t =>
    .ok ({ s with store := s.store.assign stmt.output t "sort" stmt.path stmt.ascending ext }, none)

/-- `apply`: hand the input `VarStruct`s to the analytics manager;
returns only the workflow's display. -/
def apply (ext : Ext) (stmt : ApplyStmt) (s : Session) :
    Except KErr (Session × Option CmdRet) :=
  match mapExcept (fun n =>
      match lookupVar? s.symtable n with
      | none => Except.error (KErr.VariableNotExist n)
      | some v => Except.ok v) stmt.inputs with
  | .error e => .error e
  | .ok arg_vars =>
    .ok (s, some (none, some (ext.analytics_execute stmt.workflow arg_vars s.session_id stmt.parameter)))

/-- The statements whose executors carry the `_guard_empty_input`
decorator: SAVE, FIND, JOIN, GROUP, SORT, APPLY (and no others —
in particular MERGE and GET are unguarded). -/
inductive GuardedStmt where
  | save (st : SaveStmt)
  | find (st : FindStmt)
  | join (st : JoinStmt)
  | group (st : GroupStmt)
  | sort (st : SortStmt)
  | apply (st : ApplyStmt)
deriving DecidableEq, Repr

/-- Modelled from the spec: `get_all_input_var_names` of
`kestrel.syntax.parser` (not under src/) — the input variable names of a
statement (`input`, `input_2` and `inputs` fields). -/
def get_all_input_var_names : GuardedStmt → List String
  | .save st => [st.input]
  | .find st => [st.input]
  | .join st => [st.input, st.input_2]
  | .group st => [st.input]
  | .sort st => [st.input]
  | .apply st => st.inputs

/-- Each guarded executor inside its decorator stack: the guard wraps the
body, `_default_output` wraps the guard where present (FIND, JOIN, GROUP,
SORT, APPLY; SAVE has no `_default_output`). -/
def runGuarded (ext : Ext) (g : GuardedStmt) (s : Session) :
    Except KErr (Session × CmdRet) :=
  match g with
  | .save st =>
    match guardEmptyInput [st.input] s.symtable (fun _ => save ext st s) with
    | .error e => .error e
    | .ok (s1, some ret) => .ok (s1, ret)
    | .ok (s1, none) => .ok (s1, (none, none))
  | .find st =>
    defaultOutput st.output
      (guardEmptyInput [st.input] s.symtable (fun _ =>
        match find ext st s with
        | .error e => .error e
        | .ok (s1, v) => .ok (s1, some (some v, none))))
  | .join st =>
    defaultOutput st.output
      (guardEmptyInput [st.input, st.input_2] s.symtable (fun _ => join ext st s))
  | .group st =>
    defaultOutput st.output
      (guardEmptyInput [st.input] s.symtable (fun _ => group ext st s))
  | .sort st =>
    defaultOutput st.output
      (guardEmptyInput [st.input] s.symtable (fun _ => sort ext st s))
  | .apply st =>
    defaultOutput "" (guardEmptyInput st.inputs s.symtable (fun _ => apply ext st s))

/-! ## Helper lemmas -/

lemma lookupVar?_insertVar_self (symt : Symtable) (n : String) (v : VarStruct) :
    lookupVar? (insertVar symt n v) n = some v := by
  simp [lookupVar?, insertVar, List.find?]

lemma guardCheck_none (symt : Symtable) (n : String) (v : VarStruct)
    (h1 : lookupVar? symt n = some v) (h2 : v.vlen + v.records_count ≠ 0) :
    guardCheck symt [n] = none := by
  simp [guardCheck, h1, h2]

lemma guardCheck_some_empty (symt : Symtable) :
    ∀ inputs : List String,
      (∀ m ∈ inputs, (lookupVar? symt m).isSome = true) →
      (∃ n v, n ∈ inputs ∧ lookupVar? symt n = some v ∧ v.vlen + v.records_count = 0) →
      ∃ w u, w ∈ inputs ∧ lookupVar? symt w = some u ∧ u.vlen + u.records_count = 0 ∧
        guardCheck symt inputs = some (.EmptyInputVariable w)
  | [], _, h => by rcases h with ⟨n, v, hn, _⟩; exact absurd hn (by simp)
  | n0 :: rest, hb, h => by
    rcases h0 : lookupVar? symt n0 with _ | v0
    · exact absurd (hb n0 (by simp)) (by simp [h0])
    · by_cases hz : v0.vlen + v0.records_count = 0
      · exact ⟨n0, v0, by simp, h0, hz, by simp [guardCheck, h0, hz]⟩
      · rcases h with ⟨n, v, hn, hl, he⟩
        have hnr : n ∈ rest := by
          rcases List.mem_cons.mp hn with h | h
          · subst h; rw [h0] at hl
            exact absurd (by injection hl with h; rw [h]; exact he) hz
          · exact h
        rcases guardCheck_some_empty symt rest
            (fun m hm => hb m (List.mem_cons_of_mem _ hm)) ⟨n, v, hnr, hl, he⟩ with
          ⟨w, u, hw, hlu, hu, hg⟩
        exact ⟨w, u, List.mem_cons_of_mem _ hw, hlu, hu, by simp [guardCheck, h0, hz, hg]⟩

/-- C5: For every command wrapped by the guard-empty-input decorator
(SAVE, FIND, JOIN, GROUP, SORT, APPLY): if every input variable is bound
and some input variable `v` satisfies `v.length + v.records_count == 0`,
the command raises `EmptyInputVariable` (carrying some empty input
variable), which propagates out of the executor. -/
theorem claim_c5_guarded_commands_raise_on_empty_input
    (ext : Ext) (g : GuardedStmt) (s : Session) (n : String) (v : VarStruct)
    (hmem : n ∈ get_all_input_var_names g)
    (hbound : ∀ m ∈ get_all_input_var_names g, (lookupVar? s.symtable m).isSome = true)
    (hlook : lookupVar? s.symtable n = some v)
    (hempty : v.vlen + v.records_count = 0) :
    ∃ w u, w ∈ get_all_input_var_names g ∧ lookupVar? s.symtable w = some u ∧
      u.vlen + u.records_count = 0 ∧
      runGuarded ext g s = .error (.EmptyInputVariable w) := by
  rcases guardCheck_some_empty s.symtable (get_all_input_var_names g) hbound
      ⟨n, v, hmem, hlook, hempty⟩ with ⟨w, u, hw, hlu, hu, hg⟩
  refine ⟨w, u, hw, hlu, hu, ?_⟩
  cases g <;>
    simp_all [runGuarded, guardEmptyInput, defaultOutput, get_all_input_var_names]

/-- Fixture: the view data a "rich" oracle produces for every store
operation (one process entity, two records, a datasource). -/
def vdP : ViewData :=
  { vtype := some "process", vlen := 1, vrecords := 2
    vsource := some "udi://ds", rows := [[("pid", "1")]] }

/-- Fixture: empty view data (no entities, no rows). -/
def vdE : ViewData :=
  { vtype := some "process", vlen := 0, vrecords := 0, vsource := none, rows := [] }

/-- Fixture: an oracle whose pattern builders echo their pattern-body
argument, whose store operations all produce `vdP`, whose identity
attribute is `pid` (not `id`) and whose fine-grained process filter
discards everything. -/
def extT : Ext :=
  { build_pattern := fun b _ _ _ _ _ => .ok b
    query := fun _ _ _ => 7
    extract_data := fun _ _ _ _ => vdP
    merge_data := fun _ _ => vdP
    filter_data := fun _ _ _ _ => vdP
    join_data := fun _ _ _ _ _ => vdP
    assign_data := fun _ _ _ _ _ => vdP
    assign_query_data := fun _ _ => vdP
    lookup := fun _ _ _ _ => [[("pid", "1")], [], [("pid", "1")]]
    compile_generic_relation_to_pattern := fun _ _ _ => some "[gen]"
    compile_specific_relation_to_pattern := fun _ _ _ _ _ => some "[spec]"
    compile_identical_entity_search_pattern := fun _ _ _ => some "[ident]"
    compile_x_ibm_event_search_flow_in_pattern := fun _ _ => some "[evin]"
    compile_x_ibm_event_search_flow_out_pattern := fun _ _ => some "[evout]"
    are_entities_associated_with_x_ibm_event := fun _ => true
    get_entity_id_attribute := fun _ => "pid"
    fine_grained_relational_process_filtering := fun _ _ _ _ => []
    analytics_execute := fun _ _ _ _ => .dict []
    json_dumps := fun x => x }

/-- Fixture: a session owning a store that has seen `process` and
`x-oca-event`, with one bound non-empty variable `pv` and one bound
empty variable `ev`, debug mode off, prefetch on. -/
def sesT : Session :=
  { store := { stypes := ["process", "x-oca-event"], views := [("pv_table", vdP)] }
    symtable := [("pv", new_var { stypes := ["process", "x-oca-event"], views := [("pv_table", vdP)] } (some "pv_table")), ("ev", emptyVar)]
    debug_mode := false, prefetch_get := true, prefetch_find := true
    support_id := true, start_offset := 0, end_offset := 0
    prefetch_config := [], session_id := 1, execution_tracking := none, issued := [] }

/-- C5 witness: SAVE over the empty bound variable `ev` of the fixture
session raises `EmptyInputVariable`. -/
theorem claim_c5_witness :
    ∃ w u, w ∈ get_all_input_var_names (.save { input := "ev", path := "f" }) ∧
      lookupVar? sesT.symtable w = some u ∧ u.vlen + u.records_count = 0 ∧
      runGuarded extT (.save { input := "ev", path := "f" }) sesT =
        .error (.EmptyInputVariable w) :=
  claim_c5_guarded_commands_raise_on_empty_input extT
    (.save { input := "ev", path := "f" }) sesT "ev" emptyVar
    (by simp [get_all_input_var_names])
    (by intro m hm
        simp only [get_all_input_var_names, List.mem_singleton] at hm
        subst hm; rfl)
    rfl rfl

/-- C10: when the guard-empty-input decorator raises, the wrapped
executor body has not run: the outcome does not depend on the body at
all, and the session (store, symbol table, statement bindings) is
returned unchanged. -/
theorem claim_c10_guard_failure_is_atomic
    (inputs : List String) (output : Option String) (s : Session)
    (body body' : Unit → Except KErr (Session × CmdRet)) (w : String)
    (hg : guardCheck s.symtable inputs = some (.EmptyInputVariable w)) :
    runStatementWithGuard inputs output s body = (s, .error (.EmptyInputVariable w)) ∧
      runStatementWithGuard inputs output s body =
        runStatementWithGuard inputs output s body' := by
  constructor <;> simp [runStatementWithGuard, guardEmptyInput, hg]

/-- C10 witness: a concrete failing guard leaves the fixture session
untouched, with a body that would have wiped the session. -/
theorem claim_c10_witness :
    runStatementWithGuard ["ev"] (some "o") sesT
        (fun _ => .ok ({ sesT with symtable := [], issued := [(none, none)] }, (none, none))) =
      (sesT, .error (.EmptyInputVariable "ev")) :=
  (claim_c10_guard_failure_is_atomic ["ev"] (some "o") sesT
    (fun _ => .ok ({ sesT with symtable := [], issued := [(none, none)] }, (none, none)))
    (fun _ => .error .InvalidAttribute) "ev"
    (by simp [guardCheck, sesT, lookupVar?, emptyVar, new_var, Store.getView?, vdP])).1

/-! ## Dedup lemmas (for MERGE and DISP) -/

lemma mem_dedupOrderedAux {α : Type} [DecidableEq α] :
    ∀ (l seen : List α) (x : α),
      x ∈ dedupOrderedAux seen l ↔ x ∈ l ∧ x ∉ seen
  | [], seen, x => by simp [dedupOrderedAux]
  | r :: rs, seen, x => by
    by_cases hr : r ∈ seen
    · rw [dedupOrderedAux, if_pos hr, mem_dedupOrderedAux rs]
      constructor
      · rintro ⟨h1, h2⟩; exact ⟨List.mem_cons_of_mem _ h1, h2⟩
      · rintro ⟨h1, h2⟩
        rcases List.mem_cons.mp h1 with h | h
        · exact absurd (h ▸ hr) h2
        · exact ⟨h, h2⟩
    · rw [dedupOrderedAux, if_neg hr]
      constructor
      · intro h
        rcases List.mem_cons.mp h with h | h
        · exact ⟨h ▸ List.mem_cons_self _ _, h ▸ hr⟩
        · rcases (mem_dedupOrderedAux rs _ x).mp h with ⟨h1, h2⟩
          exact ⟨List.mem_cons_of_mem _ h1, fun hx => h2 (List.mem_cons_of_mem _ hx)⟩
      · rintro ⟨h1, h2⟩
        rcases List.mem_cons.mp h1 with h | h
        · exact h ▸ List.mem_cons_self _ _
        · by_cases hxr : x = r
          · exact hxr ▸ List.mem_cons_self _ _
          · exact List.mem_cons_of_mem _
              ((mem_dedupOrderedAux rs _ x).mpr
                ⟨h, by simp [List.mem_cons, hxr, h2]⟩)

lemma nodup_dedupOrderedAux {α : Type} [DecidableEq α] :
    ∀ (l seen : List α), (dedupOrderedAux seen l).Nodup
  | [], seen => by simp [dedupOrderedAux]
  | r :: rs, seen => by
    by_cases hr : r ∈ seen
    · rw [dedupOrderedAux, if_pos hr]; exact nodup_dedupOrderedAux rs seen
    · rw [dedupOrderedAux, if_neg hr]
      refine List.nodup_cons.mpr ⟨?_, nodup_dedupOrderedAux rs (r :: seen)⟩
      intro hmem
      exact ((mem_dedupOrderedAux rs _ r).mp hmem).2 (List.mem_cons_self _ _)

lemma one_lt_dedupOptStr_iff (tys : List (Option String)) :
    1 < (dedupOptStr tys).length ↔ ∃ a b, a ∈ tys ∧ b ∈ tys ∧ a ≠ b := by
  constructor
  · intro h
    rcases hd : dedupOptStr tys with _ | ⟨a, _ | ⟨b, rest⟩⟩
    · rw [hd] at h; simp at h
    · rw [hd] at h; simp at h
    · have hnd : (dedupOptStr tys).Nodup := nodup_dedupOrderedAux tys []
      rw [hd] at hnd
      have hab : a ≠ b := by
        intro hab
        exact (List.nodup_cons.mp hnd).1 (hab ▸ List.mem_cons_self _ _)
      have ha0 : a ∈ dedupOptStr tys := hd ▸ List.mem_cons_self _ _
      have hb0 : b ∈ dedupOptStr tys :=
        hd ▸ List.mem_cons_of_mem _ (List.mem_cons_self _ _)
      have ha : a ∈ tys := ((mem_dedupOrderedAux tys [] a).mp ha0).1
      have hb : b ∈ tys := ((mem_dedupOrderedAux tys [] b).mp hb0).1
      exact ⟨a, b, ha, hb, hab⟩
  · rintro ⟨a, b, ha, hb, hab⟩
    have ha' : a ∈ dedupOptStr tys := (mem_dedupOrderedAux tys [] a).mpr ⟨ha, by simp⟩
    have hb' : b ∈ dedupOptStr tys := (mem_dedupOrderedAux tys [] b).mpr ⟨hb, by simp⟩
    rcases hd : dedupOptStr tys with _ | ⟨c, _ | ⟨d, rest⟩⟩
    · rw [hd] at ha'; simp at ha'
    · rw [hd] at ha' hb'
      simp only [List.mem_singleton] at ha' hb'
      exact absurd (ha'.trans hb'.symm) hab
    · simp [hd]

/-- C6: For every MERGE statement: when the entity types of the inputs
contain two different types, the command raises `NonUniformEntityType`;
otherwise it calls `store.merge(output, input_tables)` over the inputs'
entity tables and binds the output variable in the symbol table. -/
theorem claim_c6_merge_uniform_type_check :
    (∀ (ext : Ext) (stmt : MergeStmt) (s : Session) (tys : List (Option String)),
      mapExcept (fun n => get_entity_type n s.symtable) stmt.inputs = .ok tys →
      (∃ a b, a ∈ tys ∧ b ∈ tys ∧ a ≠ b) →
      merge ext stmt s = .error (.NonUniformEntityType (dedupOptStr tys))) ∧
    (∀ (ext : Ext) (stmt : MergeStmt) (s : Session)
        (tys : List (Option String)) (tbls : List (Option String)),
      mapExcept (fun n => get_entity_type n s.symtable) stmt.inputs = .ok tys →
      (∀ a ∈ tys, ∀ b ∈ tys, a = b) →
      mapExcept (fun n => get_entity_table n s.symtable) stmt.inputs = .ok tbls →
      merge ext stmt s =
        .ok ({ s with store := s.store.merge stmt.output tbls ext },
             new_var (s.store.merge stmt.output tbls ext) (some stmt.output)) ∧
      executeMerge ext stmt s =
        ({ s with store := s.store.merge stmt.output tbls ext,
                  symtable := insertVar s.symtable stmt.output
                    (new_var (s.store.merge stmt.output tbls ext) (some stmt.output)) },
         .ok (some (new_var (s.store.merge stmt.output tbls ext) (some stmt.output)), none))) := by
  constructor
  · intro ext stmt s tys hty hex
    have h1 : 1 < (dedupOptStr tys).length := (one_lt_dedupOptStr_iff tys).mpr hex
    simp [merge, hty, h1]
  · intro ext stmt s tys tbls hty huni htbl
    have h1 : ¬ 1 < (dedupOptStr tys).length := by
      rw [one_lt_dedupOptStr_iff tys]
      rintro ⟨a, b, ha, hb, hab⟩
      exact hab (huni a ha b hb)
    constructor
    · simp [merge, hty, h1, htbl]
    · simp [executeMerge, runStatementWithGuard, guardEmptyInput, guardCheck,
            merge, hty, h1, htbl]

/-- C6 witness: merging the single non-empty fixture variable `pv`
succeeds and binds the output, at the fixture oracle and session. -/
theorem claim_c6_witness :
    merge extT { output := "m", inputs := ["pv"] } sesT =
      .ok ({ sesT with store := sesT.store.merge "m" [some "pv_table"] extT },
           new_var (sesT.store.merge "m" [some "pv_table"] extT) (some "m")) ∧
    executeMerge extT { output := "m", inputs := ["pv"] } sesT =
      ({ sesT with store := sesT.store.merge "m" [some "pv_table"] extT,
                   symtable := insertVar sesT.symtable "m"
                     (new_var (sesT.store.merge "m" [some "pv_table"] extT) (some "m")) },
       .ok (some (new_var (sesT.store.merge "m" [some "pv_table"] extT) (some "m")), none)) :=
  claim_c6_merge_uniform_type_check.2 extT { output := "m", inputs := ["pv"] } sesT
    [some "process"] [some "pv_table"]
    (by rfl)
    (by intro a ha b hb
        simp only [List.mem_singleton] at ha hb
        rw [ha, hb])
    (by rfl)

/-! ## DISP post-processing lemmas -/

lemma dedupOrderedAux_sublist {α : Type} [DecidableEq α] :
    ∀ (l seen : List α), (dedupOrderedAux seen l).Sublist l
  | [], _ => List.Sublist.refl _
  | r :: rs, seen => by
    by_cases hr : r ∈ seen
    · rw [dedupOrderedAux, if_pos hr]
      exact (dedupOrderedAux_sublist rs seen).cons r
    · rw [dedupOrderedAux, if_neg hr]
      exact (dedupOrderedAux_sublist rs (r :: seen)).cons₂ r

lemma postprocess_sublist (rows : List Row) :
    (dedup_ordered_dicts (remove_empty_dicts rows)).Sublist rows :=
  (dedupOrderedAux_sublist _ _).trans (List.filter_sublist rows)

lemma postprocess_mem (rows : List Row) (r : Row) :
    r ∈ dedup_ordered_dicts (remove_empty_dicts rows) ↔ r ∈ rows ∧ r ≠ [] := by
  rw [dedup_ordered_dicts, mem_dedupOrderedAux]
  simp [remove_empty_dicts, List.mem_filter]

/-- C8: For every DISP statement over a bound variable (not the tracking
sentinel): when the variable has an entity table, the display is the
store lookup post-processed by dropping empty rows then duplicate rows —
with the post-processing preserving first-occurrence order (the result
is a duplicate-free sublist holding exactly the non-empty rows); when
the variable's entity table is `None`, the display is an empty table and
no error is raised. -/
theorem claim_c8_disp_postprocessed_lookup :
    (∀ (ext : Ext) (stmt : DispStmt) (s : Session) (v : VarStruct) (et : String),
      stmt.input ≠ "_" →
      lookupVar? s.symtable stmt.input = some v →
      v.entity_table = some et →
      disp ext stmt s =
        .ok (none, some (.dataframe (dedup_ordered_dicts
          (remove_empty_dicts (ext.lookup s.store et stmt.attrs stmt.limit)))))) ∧
    (∀ (ext : Ext) (stmt : DispStmt) (s : Session) (v : VarStruct),
      stmt.input ≠ "_" →
      lookupVar? s.symtable stmt.input = some v →
      v.entity_table = none →
      disp ext stmt s = .ok (none, some (.dataframe []))) ∧
    (∀ rows : List Row,
      (dedup_ordered_dicts (remove_empty_dicts rows)).Sublist rows ∧
      (dedup_ordered_dicts (remove_empty_dicts rows)).Nodup ∧
      ∀ r : Row, r ∈ dedup_ordered_dicts (remove_empty_dicts rows) ↔ r ∈ rows ∧ r ≠ []) := by
  refine ⟨?_, ?_, ?_⟩
  · intro ext stmt s v et hne hlook het
    have hbeq : (stmt.input == "_") = false := by
      simp [hne]
    cases htr : s.execution_tracking <;>
      simp [disp, hbeq, htr, hlook, het]
  · intro ext stmt s v hne hlook het
    have hbeq : (stmt.input == "_") = false := by
      simp [hne]
    cases htr : s.execution_tracking <;>
      simp [disp, hbeq, htr, hlook, het, dedup_ordered_dicts, remove_empty_dicts,
        dedupOrderedAux]
  · intro rows
    exact ⟨postprocess_sublist rows, nodup_dedupOrderedAux _ _, postprocess_mem rows⟩

/-- C8 witness: DISP of the non-empty fixture variable `pv` returns the
deduplicated non-empty rows, and DISP of the empty variable `ev` returns
an empty table. -/
theorem claim_c8_witness :
    disp extT { input := "pv", attrs := none, limit := none } sesT =
      .ok (none, some (.dataframe (dedup_ordered_dicts
        (remove_empty_dicts (extT.lookup sesT.store "pv_table" none none))))) ∧
    disp extT { input := "ev", attrs := none, limit := none } sesT =
      .ok (none, some (.dataframe [])) :=
  ⟨claim_c8_disp_postprocessed_lookup.1 extT _ sesT
      (new_var { stypes := ["process", "x-oca-event"], views := [("pv_table", vdP)] }
        (some "pv_table")) "pv_table"
      (by decide) rfl rfl,
   claim_c8_disp_postprocessed_lookup.2.1 extT _ sesT emptyVar (by decide) rfl rfl⟩

/-- C9: For every GET statement with a `variablesource` field — even
when a `datasource` field is also present — the variable-source branch
runs: the source variable's view is filtered by the compiled pattern
into the output, and no remote datasource query is issued (the issued
query log is unchanged).  `KestrelInternalError` is raised exactly when
both fields are absent (and the pattern compiles). -/
theorem claim_c9_get_variablesource_priority :
    (∀ (ext : Ext) (stmt : GetStmt) (s : Session) (vsrc : String)
        (p : Option String) (et : Option String),
      stmt.variablesource = some vsrc →
      ext.build_pattern stmt.patternbody stmt.timerange s.start_offset s.end_offset
        s.symtable s.store = .ok p →
      get_entity_table vsrc s.symtable = .ok et →
      get ext stmt s =
        .ok ({ s with store := s.store.filter stmt.output stmt.etype et p ext },
             new_var (s.store.filter stmt.output stmt.etype et p ext) (some stmt.output))) ∧
    (∀ (ext : Ext) (stmt : GetStmt) (s : Session) (vsrc : String)
        (s' : Session) (v : VarStruct),
      stmt.variablesource = some vsrc →
      get ext stmt s = .ok (s', v) →
      s'.issued = s.issued) ∧
    (∀ (ext : Ext) (stmt : GetStmt) (s : Session) (m : String),
      get ext stmt s = .error (.KestrelInternalError m) →
      stmt.variablesource = none ∧ stmt.datasource = none) ∧
    (∀ (ext : Ext) (stmt : GetStmt) (s : Session) (p : Option String),
      stmt.variablesource = none → stmt.datasource = none →
      ext.build_pattern stmt.patternbody stmt.timerange s.start_offset s.end_offset
        s.symtable s.store = .ok p →
      get ext stmt s = .error (.KestrelInternalError "unknown type of source")) := by
  refine ⟨?_, ?_, ?_, ?_⟩
  · intro ext stmt s vsrc p et hvs hbp het
    simp [get, hvs, hbp, het]
  · intro ext stmt s vsrc s' v hvs h
    simp only [get, hvs] at h
    rcases hbp : ext.build_pattern stmt.patternbody stmt.timerange s.start_offset
        s.end_offset s.symtable s.store with _ | p
    · rw [hbp] at h; exact absurd h (by simp)
    · rw [hbp] at h
      rcases het : get_entity_table vsrc s.symtable with e | et
      · rw [het] at h; exact absurd h (by simp)
      · rw [het] at h
        have := (Except.ok.injEq _ _).mp h
        rw [← (Prod.mk.injEq _ _ _ _).mp this |>.1]
  · intro ext stmt s m h
    simp only [get] at h
    rcases hbp : ext.build_pattern stmt.patternbody stmt.timerange s.start_offset
        s.end_offset s.symtable s.store with _ | p
    · rw [hbp] at h; simp at h
    · rw [hbp] at h
      rcases hvs : stmt.variablesource with _ | vsrc
      · rw [hvs] at h
        rcases hds : stmt.datasource with _ | ds
        · exact ⟨rfl, rfl⟩
        · rw [hds] at h
          simp only [] at h
          split at h <;> simp_all
      · rw [hvs] at h
        simp only [] at h
        rcases hl : lookupVar? s.symtable vsrc with _ | w
        · simp only [get_entity_table, hl] at h
          simp at h
        · simp only [get_entity_table, hl] at h
          simp at h
  · intro ext stmt s p hvs hds hbp
    simp [get, hvs, hds, hbp]

/-- C9 witness: a GET carrying both a variable source (`pv`) and a
datasource takes the variable-source branch and issues no query. -/
theorem claim_c9_witness :
    get extT
      { output := "o", etype := "process", patternbody := some "[p]", timerange := none
        datasource := some "ds", variablesource := some "pv" } sesT =
      .ok ({ sesT with store := sesT.store.filter "o" "process" (some "pv_table") (some "[p]") extT },
           new_var (sesT.store.filter "o" "process" (some "pv_table") (some "[p]") extT) (some "o")) ∧
    ∀ (s' : Session) (v : VarStruct),
      get extT
        { output := "o", etype := "process", patternbody := some "[p]", timerange := none
          datasource := some "ds", variablesource := some "pv" } sesT = .ok (s', v) →
      s'.issued = sesT.issued :=
  ⟨claim_c9_get_variablesource_priority.1 extT _ sesT "pv" (some "[p]") (some "pv_table")
      rfl rfl rfl,
   fun s' v h => claim_c9_get_variablesource_priority.2.1 extT _ sesT "pv" s' v rfl h⟩

/-- C1: For every FIND statement (with a non-empty input, so the guard
passes): when the return type is not among the store's known types, or
when the compiled final local pattern (the OR of the relation pattern
and the optional event pattern) is `None`, the executor binds an empty
output variable (entity table `None`) in the symbol table and returns
normally rather than raising. -/
theorem claim_c1_find_binds_empty_variable
    (ext : Ext) (stmt : FindStmt) (s : Session) (iv : VarStruct)
    (hlook : lookupVar? s.symtable stmt.input = some iv)
    (hne : iv.vlen + iv.records_count ≠ 0)
    (hcase : s.store.stypes.contains stmt.etype = false ∨
      (findPatternPrep ext stmt s).2.2 = none) :
    ∃ (s' : Session) (v : VarStruct),
      executeFind ext stmt s = (s', .ok (some v, none)) ∧
      v.entity_table = none ∧
      lookupVar? s'.symtable stmt.output = some v := by
  have hg : guardCheck s.symtable [stmt.input] = none := guardCheck_none _ _ _ hlook hne
  have hfind : ∃ s1, find ext stmt s = .ok (s1, emptyVar) := by
    by_cases hts : s.store.stypes.contains stmt.etype = true
    · rcases hcase with hc | hc
      · rw [hts] at hc; cases hc
      · rcases hprep : findPatternPrep ext stmt s with ⟨store1, symt1, lp⟩
        have hlp : lp = none := by rw [hprep] at hc; exact hc
        refine ⟨{ s with store := store1 }, ?_⟩
        rw [find, if_neg (not_not_intro hts), hprep, hlp]
        rfl
    · exact ⟨s, by rw [find, if_pos hts]; rfl⟩
  rcases hfind with ⟨s1, hf⟩
  refine ⟨{ s1 with symtable := insertVar s1.symtable stmt.output emptyVar },
    emptyVar, ?_, rfl, ?_⟩
  · simp [executeFind, runStatementWithGuard, guardEmptyInput, hg, findInputNames,
      defaultOutput, hf]
  · exact lookupVar?_insertVar_self _ _ _

/-- C1 witness: a FIND whose return type `file` has never been seen in
the fixture store binds an empty output variable. -/
theorem claim_c1_witness :
    ∃ (s' : Session) (v : VarStruct),
      executeFind extT
        { output := "f", etype := "file", input := "pv", relation := "linked"
          reversed := false, timerange := none } sesT = (s', .ok (some v, none)) ∧
      v.entity_table = none ∧
      lookupVar? s'.symtable "f" = some v :=
  claim_c1_find_binds_empty_variable extT
    { output := "f", etype := "file", input := "pv", relation := "linked"
      reversed := false, timerange := none } sesT
    (new_var { stypes := ["process", "x-oca-event"], views := [("pv_table", vdP)] }
      (some "pv_table"))
    rfl (by decide) (Or.inl (by decide))

/-- C3 counterexample: the original claim states that `_prefetch`
returns `None` whenever any step produced an empty result, including "an
empty extraction of the loaded rows" — but with an oracle whose
extraction is empty (no rows, no entities) and both patterns non-empty,
`_prefetch` still returns the view name: the extraction's emptiness is
never checked. -/
theorem claim_c3_counterexample :
    ∃ (st : Store) (ql : QLog),
      prefetch { extT with extract_data := fun _ _ _ _ => vdE }
        "process" "v_prefetch" "v_local" none 0 0
        [("v_local", { vtype := some "process", entity_table := some "v_local",
                       vlen := 1, records_count := 2, data_source := some "udi://ds" })]
        { stypes := ["process"], views := [] } [] 1 true =
        .ok (st, ql, some "v_prefetch") ∧
      st.getView? "v_prefetch" = some vdE ∧ vdE.rows = [] ∧ vdE.vlen = 0 :=
  ⟨_, _, rfl, rfl, rfl, rfl⟩

/-- C3 (amended): `_prefetch` returns the name of the return-variable
view exactly when both pattern-building steps produced a non-empty
result — it returns `None` when the identical-entity pattern body is
empty or the built remote pattern is empty, and otherwise returns the
view name after querying the input's datasource and extracting the view,
regardless of whether that extraction is empty. -/
theorem claim_c3_amended_prefetch_return_value :
    (∀ (ext : Ext) (rt rvn ivn : String) (tr : TimeRange) (so eo : Int)
        (symt : Symtable) (store : Store) (qlog : QLog) (sid : Nat) (sup : Bool),
      ext.compile_identical_entity_search_pattern ivn (lookupVar symt ivn) sup = none →
      prefetch ext rt rvn ivn tr so eo symt store qlog sid sup = .ok (store, qlog, none)) ∧
    (∀ (ext : Ext) (rt rvn ivn : String) (tr : TimeRange) (so eo : Int)
        (symt : Symtable) (store : Store) (qlog : QLog) (sid : Nat) (sup : Bool) (pb : String),
      ext.compile_identical_entity_search_pattern ivn (lookupVar symt ivn) sup = some pb →
      ext.build_pattern (some pb) tr so eo symt store = .ok none →
      prefetch ext rt rvn ivn tr so eo symt store qlog sid sup = .ok (store, qlog, none)) ∧
    (∀ (ext : Ext) (rt rvn ivn : String) (tr : TimeRange) (so eo : Int)
        (symt : Symtable) (store : Store) (qlog : QLog) (sid : Nat) (sup : Bool)
        (pb rp : String),
      ext.compile_identical_entity_search_pattern ivn (lookupVar symt ivn) sup = some pb →
      ext.build_pattern (some pb) tr so eo symt store = .ok (some rp) →
      prefetch ext rt rvn ivn tr so eo symt store qlog sid sup =
        .ok (store.extract rvn rt
              (some (ext.query (lookupVar symt ivn).data_source (some rp) sid))
              (some rp) ext,
             qlog ++ [((lookupVar symt ivn).data_source, some rp)],
             some rvn)) := by
  refine ⟨?_, ?_, ?_⟩
  · intro ext rt rvn ivn tr so eo symt store qlog sid sup hc
    simp [prefetch, hc]
  · intro ext rt rvn ivn tr so eo symt store qlog sid sup pb hc hb
    simp [prefetch, hc, hb]
  · intro ext rt rvn ivn tr so eo symt store qlog sid sup pb rp hc hb
    simp [prefetch, hc, hb, dsQuery]

/-- C3 witness: at the fixture oracle, a prefetch with both patterns
non-empty returns the view name and the extended query log. -/
theorem claim_c3_witness :
    prefetch extT "process" "v_prefetch" "v_local" none 0 0
      [("v_local", { vtype := some "process", entity_table := some "v_local",
                     vlen := 1, records_count := 2, data_source := some "udi://ds" })]
      { stypes := ["process"], views := [] } [] 1 true =
      .ok ((Store.extract { stypes := ["process"], views := [] } "v_prefetch" "process"
              (some 7) (some "[ident]") extT),
           [(some "udi://ds", some "[ident]")],
           some "v_prefetch") :=
  claim_c3_amended_prefetch_return_value.2.2 extT "process" "v_prefetch" "v_local"
    none 0 0 _ _ [] 1 true "[ident]" "[ident]" rfl rfl

/-- Fixture: the local view's `VarStruct` used in prefetch scenarios. -/
def lvT : VarStruct :=
  { vtype := some "process", entity_table := some "out_local", vlen := 1
    records_count := 2, data_source := some "udi://ds" }

/-- C4: In the prefetch block shared by GET-from-datasource and FIND
(`prefetchFilterChain`, invoked by both executors), when the return type
is `process` and the local view's entity id attribute is not `id`, the
fine-grained relational process filter is applied to the prefetch result
before merging: when some entity ids survive, they are turned into an id
pattern and extracted into `<output>_prefetch_filtered`; when no
prefetched process survives, the filter yields `None` (and
`build_pattern_from_ids` yields `None` exactly on an empty id set). -/
theorem claim_c4_fine_grained_process_filter :
    (∀ (ext : Ext) (rv lv : String) (tr : TimeRange) (so eo : Int)
        (localOut : VarStruct) (store : Store) (qlog : QLog) (sid : Nat) (sup : Bool)
        (cfg : List (String × String)) (st2 : Store) (ql2 : QLog) (pres : Option String),
      ext.get_entity_id_attribute localOut ≠ "id" →
      prefetch ext "process" (rv ++ "_prefetch") lv tr so eo [(lv, localOut)]
        store qlog sid sup = .ok (st2, ql2, pres) →
      prefetchFilterChain ext true "process" rv lv tr so eo localOut store qlog sid sup cfg =
        .ok ((filter_prefetched_process ext rv cfg st2 localOut pres "process").1, ql2,
             (filter_prefetched_process ext rv cfg st2 localOut pres "process").2)) ∧
    (∀ (ext : Ext) (rv : String) (cfg : List (String × String)) (st2 : Store)
        (localOut : VarStruct) (pres : Option String) (rt : String),
      ext.fine_grained_relational_process_filtering localOut pres st2 cfg = [] →
      filter_prefetched_process ext rv cfg st2 localOut pres rt = (st2, none)) ∧
    (∀ (ext : Ext) (rv : String) (cfg : List (String × String)) (st2 : Store)
        (localOut : VarStruct) (pres : Option String) (rt : String)
        (ids : List String) (idp : String),
      ext.fine_grained_relational_process_filtering localOut pres st2 cfg = ids →
      build_pattern_from_ids rt ids = some idp →
      filter_prefetched_process ext rv cfg st2 localOut pres rt =
        (st2.extract (rv ++ "_prefetch_filtered") rt none (some idp) ext,
         some (rv ++ "_prefetch_filtered"))) ∧
    (∀ (rt : String) (ids : List String),
      build_pattern_from_ids rt ids = none ↔ ids = []) := by
  refine ⟨?_, ?_, ?_, ?_⟩
  · intro ext rv lv tr so eo localOut store qlog sid sup cfg st2 ql2 pres hid hpre
    simp [prefetchFilterChain, hpre, hid]
  · intro ext rv cfg st2 localOut pres rt hfg
    simp [filter_prefetched_process, hfg, build_pattern_from_ids]
  · intro ext rv cfg st2 localOut pres rt ids idp hfg hidp
    simp [filter_prefetched_process, hfg, hidp]
  · intro rt ids
    cases ids <;> simp [build_pattern_from_ids]

/-- C4 witness: the chain at the fixture oracle (id attribute `pid`)
routes the prefetch result through the process filter. -/
theorem claim_c4_witness :
    ∃ (st2 : Store) (ql2 : QLog) (pres : Option String),
      prefetch extT "process" ("out" ++ "_prefetch") "out_local" none 0 0
        [("out_local", lvT)] { stypes := ["process"], views := [] } [] 1 true =
        .ok (st2, ql2, pres) ∧
      prefetchFilterChain extT true "process" "out" "out_local" none 0 0 lvT
        { stypes := ["process"], views := [] } [] 1 true [] =
        .ok ((filter_prefetched_process extT "out" [] st2 lvT pres "process").1, ql2,
             (filter_prefetched_process extT "out" [] st2 lvT pres "process").2) :=
  ⟨_, _, _, rfl,
   claim_c4_fine_grained_process_filter.1 extT "out" "out_local" none 0 0 lvT
     { stypes := ["process"], views := [] } [] 1 true [] _ _ _ (by decide) rfl⟩

/-! ## View-lifecycle lemmas -/

lemma hasView_false_iff (st : Store) (v : String) :
    st.hasView v = false ↔ st.getView? v = none := by
  rw [Store.hasView]; cases st.getView? v <;> simp

lemma getView?_none_iff (st : Store) (v : String) :
    st.getView? v = none ↔ ∀ q ∈ st.views, q.1 ≠ v := by
  simp [Store.getView?, List.find?_eq_none]

lemma remove_view_getView?_self (st : Store) (v : String) :
    (st.remove_view v).getView? v = none := by
  rw [getView?_none_iff]
  intro q hq
  simp only [Store.remove_view, List.mem_filter, bne_iff_ne, ne_eq] at hq
  exact hq.2

lemma remove_view_absent (st : Store) (v w : String)
    (h : st.getView? v = none) : (st.remove_view w).getView? v = none := by
  rw [getView?_none_iff] at h ⊢
  intro q hq
  exact h q (List.mem_filter.mp hq).1

lemma setView_absent (st : Store) (v w : String) (d : ViewData)
    (hvw : v ≠ w) (h : st.getView? v = none) : (st.setView w d).getView? v = none := by
  rw [getView?_none_iff] at h ⊢
  intro q hq
  simp only [Store.setView, List.mem_cons] at hq
  rcases hq with rfl | hq
  · exact fun hc => hvw hc.symm
  · exact h q (List.mem_filter.mp hq).1

lemma rename_view_old_absent (st : Store) (old new : String)
    (h : old ≠ new) : (st.rename_view old new).getView? old = none := by
  rw [Store.rename_view]
  cases hg : st.getView? old with
  | none => exact hg
  | some d => exact setView_absent _ _ _ _ h (remove_view_getView?_self st old)

lemma removeViews_absent :
    ∀ (vs : List String) (st : Store) (v : String),
      v ∈ vs ∨ st.getView? v = none → (removeViews st vs).getView? v = none
  | [], st, v, h => by
    rcases h with h | h
    · simp at h
    · simpa [removeViews] using h
  | w :: rest, st, v, h => by
    have hstep : removeViews st (w :: rest) = removeViews (st.remove_view w) rest := by
      simp [removeViews]
    rw [hstep]
    rcases h with h | h
    · rcases List.mem_cons.mp h with rfl | hmem
      · exact removeViews_absent rest _ v (Or.inr (remove_view_getView?_self st v))
      · exact removeViews_absent rest _ v (Or.inl hmem)
    · exact removeViews_absent rest _ v (Or.inr (remove_view_absent st v w h))

lemma mem_dedupStr (l : List String) (x : String) : x ∈ dedupStr l ↔ x ∈ l := by
  rw [dedupStr, mem_dedupOrderedAux]; simp

lemma append_ne_of_length_pos (s t : String) (ht : 0 < t.length) : s ++ t ≠ s := by
  intro h
  have hlen := congrArg String.length h
  rw [String.length_append] at hlen
  omega

lemma mergeCleanupStep_merge_branch (ext : Ext) (output loc pvar t : String) (st : Store) :
    (mergeCleanupStep ext false output loc pvar (some t) st).hasView loc = false ∧
    (mergeCleanupStep ext false output loc pvar (some t) st).hasView t = false ∧
    (mergeCleanupStep ext false output loc pvar (some t) st).hasView pvar = false := by
  have hstep : mergeCleanupStep ext false output loc pvar (some t) st =
      removeViews (st.merge output [some loc, some t] ext) (dedupStr [loc, t, pvar]) := by
    simp [mergeCleanupStep]
  refine ⟨?_, ?_, ?_⟩ <;>
    rw [hstep, hasView_false_iff] <;>
    exact removeViews_absent _ _ _ (Or.inl ((mem_dedupStr _ _).mpr (by simp)))

lemma mergeCleanupStep_rename_branch (ext : Ext) (dbg : Bool)
    (output loc pvar : String) (st : Store) (h : loc ≠ output) :
    mergeCleanupStep ext dbg output loc pvar none st = st.rename_view loc output ∧
    (mergeCleanupStep ext dbg output loc pvar none st).hasView loc = false := by
  refine ⟨rfl, ?_⟩
  rw [hasView_false_iff]
  exact rename_view_old_absent st loc output h

lemma hasView_setView_self (st : Store) (v : String) (d : ViewData) :
    (st.setView v d).hasView v = true := by
  simp [Store.hasView, Store.setView, Store.getView?, List.find?]

/-- Fixture: a `network-traffic` input variable for the FIND
event-branch scenario. -/
def nvT : VarStruct :=
  { vtype := some "network-traffic", entity_table := some "nv_table", vlen := 1
    records_count := 1, data_source := some "udi://ds" }

/-- Fixture: an oracle whose pattern builder succeeds only on the
event-in body and raises `InvalidAttribute` on everything else. -/
def extEvt : Ext :=
  { extT with
    build_pattern := fun b _ _ _ _ _ => if b == some "[evin]" then .ok b else .error () }

/-- Fixture: a session binding the `network-traffic` variable `nv`. -/
def sesEvt : Session := { sesT with symtable := [("nv", nvT)] }

/-- C2 counterexample: a GET from a datasource with debug mode off, whose
prefetch succeeds (creating the `<output>_prefetch` view) but whose
fine-grained process filter then discards every row, returns with the
temporary `<output>_prefetch` view still present in the store — the
claim that every temporary view has been removed on success is false. -/
theorem claim_c2_counterexample :
    sesT.debug_mode = false ∧
    ∃ (s' : Session) (v : VarStruct),
      get extT
        { output := "out", etype := "process", patternbody := some "[p]", timerange := none
          datasource := some "ds", variablesource := none } sesT = .ok (s', v) ∧
      s'.store.hasView ("out" ++ "_prefetch") = true :=
  ⟨rfl, _, _, rfl, rfl⟩

/-- C2 (amended): For every GET-from-datasource or FIND statement (the
shared merge/cleanup epilogue) completing successfully with debug mode
off: the final store is the merge/cleanup of the prefetch pipeline's
result; whenever the pipeline yielded a table (the merge branch), the
`<output>_local` view, that table (`<output>_prefetch` or
`<output>_prefetch_filtered`) and the `<output>_prefetch` view are all
removed; whenever the pipeline yielded `None`, `<output>_local` is
renamed to `<output>` and does not survive — but a `<output>_prefetch`
view created by a successful prefetch whose process filter then
discarded every row is not in any removal set and survives; likewise,
when FIND's event branch raises `InvalidAttribute` after extracting
`<output>_asso_event`, the removal of that view is skipped and it
survives (last two conjuncts: the general event-branch statement and a
concrete successful FIND run, debug off, ending with the
`<output>_asso_event` view still in the store). -/
theorem claim_c2_amended_temp_view_cleanup :
    (∀ (ext : Ext) (stmt : GetStmt) (s : Session) (ds : String)
        (s' : Session) (v : VarStruct),
      stmt.variablesource = none → stmt.datasource = some ds → s.debug_mode = false →
      get ext stmt s = .ok (s', v) →
      ∃ (st2 : Store) (pret : Option String),
        s'.store = mergeCleanupStep ext false stmt.output (stmt.output ++ "_local")
          (stmt.output ++ "_prefetch") pret st2 ∧
        (∀ t, pret = some t →
          s'.store.hasView (stmt.output ++ "_local") = false ∧
          s'.store.hasView t = false ∧
          s'.store.hasView (stmt.output ++ "_prefetch") = false) ∧
        (pret = none →
          s'.store = st2.rename_view (stmt.output ++ "_local") stmt.output ∧
          s'.store.hasView (stmt.output ++ "_local") = false)) ∧
    (∀ (ext : Ext) (stmt : FindStmt) (s : Session) (lp : String)
        (s' : Session) (v : VarStruct),
      s.store.stypes.contains stmt.etype = true →
      (findPatternPrep ext stmt s).2.2 = some lp →
      s.debug_mode = false →
      find ext stmt s = .ok (s', v) →
      ∃ (st3 : Store) (pret : Option String),
        s'.store = mergeCleanupStep ext false stmt.output (stmt.output ++ "_local")
          (stmt.output ++ "_prefetch") pret st3 ∧
        (∀ t, pret = some t →
          s'.store.hasView (stmt.output ++ "_local") = false ∧
          s'.store.hasView t = false ∧
          s'.store.hasView (stmt.output ++ "_prefetch") = false) ∧
        (pret = none →
          s'.store = st3.rename_view (stmt.output ++ "_local") stmt.output ∧
          s'.store.hasView (stmt.output ++ "_local") = false)) ∧
    (∀ (ext : Ext) (output rtype ivn : String) (itype : Option String)
        (tr : TimeRange) (so eo : Int) (dbg : Bool) (symt : Symtable) (store : Store)
        (p_in : Option String) (store1 : Store) (symt1 : Symtable),
      ext.build_pattern (ext.compile_x_ibm_event_search_flow_in_pattern itype ivn)
        tr so eo symt store = .ok p_in →
      store1 = store.extract (output ++ "_asso_event") "x-oca-event" none p_in ext →
      symt1 = insertVar symt (output ++ "_asso_event")
        (new_var store1 (some (output ++ "_asso_event"))) →
      ext.build_pattern (ext.compile_x_ibm_event_search_flow_out_pattern rtype
        (output ++ "_asso_event")) tr so eo symt1 store1 = .error () →
      findEventBranch ext output rtype ivn itype tr so eo dbg symt store =
        (store1, symt1, none) ∧
      store1.hasView (output ++ "_asso_event") = true) ∧
    (sesEvt.debug_mode = false ∧
      ∃ (s' : Session) (v : VarStruct),
        find extEvt
          { output := "f", etype := "process", input := "nv", relation := "linked"
            reversed := false, timerange := none } sesEvt = .ok (s', v) ∧
        s'.store.hasView ("f" ++ "_asso_event") = true) := by
  refine ⟨?_, ?_, ?_, ?_⟩
  case refine_3 =>
    intro ext output rtype ivn itype tr so eo dbg symt store p_in store1 symt1
      hin hst hsy hout
    subst hst; subst hsy
    constructor
    · simp [findEventBranch, hin, hout]
    · exact hasView_setView_self _ _ _
  case refine_4 =>
    exact ⟨rfl, _, _, rfl, rfl⟩
  · intro ext stmt s ds s' v hvs hds hdbg hGet
    simp only [get, hvs, hds] at hGet
    split at hGet
    · exact absurd hGet (by simp)
    · split at hGet
      · exact absurd hGet (by simp)
      · rename_i p store2 qlog2 pret heq
        have h1 := (Prod.mk.injEq _ _ _ _).mp ((Except.ok.injEq _ _).mp hGet)
        rw [← h1.1, hdbg]
        refine ⟨store2, pret, rfl, ?_, ?_⟩
        · rintro t rfl
          exact mergeCleanupStep_merge_branch ext stmt.output (stmt.output ++ "_local")
            (stmt.output ++ "_prefetch") t store2
        · rintro rfl
          exact mergeCleanupStep_rename_branch ext false stmt.output
            (stmt.output ++ "_local") (stmt.output ++ "_prefetch") store2
            (append_ne_of_length_pos stmt.output "_local" (by decide))
  · intro ext stmt s lp s' v hts hprep hdbg hF
    rw [find, if_neg (not_not_intro hts)] at hF
    rcases hpp : findPatternPrep ext stmt s with ⟨store1, symt1, lp'⟩
    rw [hpp] at hprep
    have hlp : lp' = some lp := hprep
    simp only [hpp, hlp] at hF
    split at hF
    · exact absurd hF (by simp)
    · rename_i store3 qlog3 pret heq
      have h1 := (Prod.mk.injEq _ _ _ _).mp ((Except.ok.injEq _ _).mp hF)
      rw [← h1.1, hdbg]
      refine ⟨store3, pret, rfl, ?_, ?_⟩
      · rintro t rfl
        exact mergeCleanupStep_merge_branch ext stmt.output (stmt.output ++ "_local")
          (stmt.output ++ "_prefetch") t store3
      · rintro rfl
        exact mergeCleanupStep_rename_branch ext false stmt.output
          (stmt.output ++ "_local") (stmt.output ++ "_prefetch") store3
          (append_ne_of_length_pos stmt.output "_local" (by decide))

/-- C2 witness: the counterexample GET's own run satisfies the amended
statement — the pipeline yields `None` after the filter discards all
rows, `out_local` is renamed away, and only `out_prefetch` survives as
the amended claim allows. -/
theorem claim_c2_witness :
    ∃ (s' : Session) (v : VarStruct),
      get extT
        { output := "out", etype := "process", patternbody := some "[p]", timerange := none
          datasource := some "ds", variablesource := none } sesT = .ok (s', v) ∧
      ∃ (st2 : Store) (pret : Option String),
        s'.store = mergeCleanupStep extT false "out" ("out" ++ "_local")
          ("out" ++ "_prefetch") pret st2 ∧
        (∀ t, pret = some t →
          s'.store.hasView ("out" ++ "_local") = false ∧
          s'.store.hasView t = false ∧
          s'.store.hasView ("out" ++ "_prefetch") = false) ∧
        (pret = none →
          s'.store = st2.rename_view ("out" ++ "_local") "out" ∧
          s'.store.hasView ("out" ++ "_local") = false) :=
  ⟨_, _, rfl,
   claim_c2_amended_temp_view_cleanup.1 extT
     { output := "out", etype := "process", patternbody := some "[p]", timerange := none
       datasource := some "ds", variablesource := none } sesT "ds" _ _ rfl rfl rfl rfl⟩

/-! ## Simple-path characterization (for DISP over the tracking graph) -/

/-- A simple path in the tracking graph from `src` to `target`: non-empty
(it has a head), starts at `src`, ends at `target`, follows edges, and
repeats no node. -/
def IsSimplePath (g : DiGraph) (src target : String) (p : List String) : Prop :=
  p.head? = some src ∧ p.getLast? = some target ∧
  List.Chain' (fun a b => (a, b) ∈ g.edges) p ∧ p.Nodup

lemma mem_successors (g : DiGraph) (a b : String) :
    b ∈ successors g a ↔ (a, b) ∈ g.edges := by
  simp only [successors, List.mem_map, List.mem_filter, beq_iff_eq]
  constructor
  · rintro ⟨e, ⟨he, h1⟩, h2⟩
    have : e = (a, b) := Prod.ext h1 h2
    exact this ▸ he
  · intro h
    exact ⟨(a, b), ⟨h, rfl⟩, rfl⟩

lemma mem_of_getLast?_eq {α : Type} : ∀ (l : List α) (a : α), l.getLast? = some a → a ∈ l
  | [], a, h => by simp at h
  | [x], a, h => by simp_all
  | x :: y :: rest, a, h => by
    rw [List.getLast?_cons_cons] at h
    exact List.mem_cons_of_mem _ (mem_of_getLast?_eq (y :: rest) a h)

lemma chain'_tail_has_pred {R : String → String → Prop} :
    ∀ (p : List String), List.Chain' R p → ∀ x ∈ p.tail, ∃ y, R y x
  | [], _, x, hx => by simp at hx
  | [a], _, x, hx => by simp at hx
  | a :: b :: rest, hch, x, hx => by
    rcases List.mem_cons.mp hx with rfl | hx2
    · exact ⟨a, (List.chain'_cons.mp hch).1⟩
    · exact chain'_tail_has_pred (b :: rest) (List.chain'_cons.mp hch).2 x hx2

lemma mem_simplePathsAux (g : DiGraph) (t : String) :
    ∀ (fuel : Nat) (cur : String) (visited : List String) (p : List String),
      cur ∈ visited →
      (p ∈ simplePathsAux g t fuel cur visited ↔
        (p.head? = some cur ∧ p.getLast? = some t ∧
         List.Chain' (fun a b => (a, b) ∈ g.edges) p ∧ p.Nodup ∧
         (∀ x ∈ p.tail, x ∉ visited) ∧ p.length ≤ fuel)) := by
  intro fuel
  induction fuel with
  | zero =>
    intro cur visited p hcv
    simp only [simplePathsAux, List.not_mem_nil, false_iff, not_and]
    intro hhead _ _ _ _
    cases p with
    | nil => simp at hhead
    | cons a q => simp
  | succ fuel ih =>
    intro cur visited p hcv
    by_cases hct : cur = t
    · subst hct
      rw [simplePathsAux, if_pos rfl]
      constructor
      · intro hp
        simp only [List.mem_singleton] at hp
        subst hp
        refine ⟨rfl, rfl, List.chain'_singleton _, List.nodup_singleton _, ?_, by simp⟩
        intro x hx; simp at hx
      · rintro ⟨hhead, hlast, hchain, hnodup, htail, hlen⟩
        cases p with
        | nil => simp at hhead
        | cons a q =>
          simp only [List.head?_cons, Option.some.injEq] at hhead
          subst hhead
          cases q with
          | nil => simp
          | cons b q2 =>
            exfalso
            rw [List.getLast?_cons_cons] at hlast
            exact (List.nodup_cons.mp hnodup).1 (mem_of_getLast?_eq _ _ hlast)
    · rw [simplePathsAux, if_neg hct]
      constructor
      · intro hp
        simp only [List.mem_flatMap, List.mem_filter, List.mem_map,
          decide_not, Bool.not_eq_eq_eq_not, Bool.not_true, decide_eq_false_iff_not] at hp
        obtain ⟨m, ⟨hms, hmv⟩, q, hq, rfl⟩ := hp
        obtain ⟨hhead, hlast, hchain, hnodup, htail, hlen⟩ :=
          (ih m (m :: visited) q (List.mem_cons_self _ _)).mp hq
        cases q with
        | nil => simp at hhead
        | cons m0 q2 =>
          simp only [List.head?_cons, Option.some.injEq] at hhead
          subst hhead
          refine ⟨rfl, ?_, ?_, ?_, ?_, ?_⟩
          · rw [List.getLast?_cons_cons]; exact hlast
          · exact List.chain'_cons.mpr ⟨(mem_successors g cur m0).mp hms, hchain⟩
          · refine List.nodup_cons.mpr ⟨?_, hnodup⟩
            intro hcur
            rcases List.mem_cons.mp hcur with rfl | hcur2
            · exact hmv hcv
            · exact htail cur hcur2 (List.mem_cons_of_mem _ hcv)
          · intro x hx
            rcases List.mem_cons.mp hx with rfl | hx2
            · exact hmv
            · intro hxv; exact htail x hx2 (List.mem_cons_of_mem _ hxv)
          · simpa using Nat.succ_le_succ hlen
      · rintro ⟨hhead, hlast, hchain, hnodup, htail, hlen⟩
        cases p with
        | nil => simp at hhead
        | cons a q =>
          simp only [List.head?_cons, Option.some.injEq] at hhead
          subst hhead
          cases q with
          | nil => exact absurd (by simpa using hlast) hct
          | cons m q2 =>
            have hRm : (a, m) ∈ g.edges := (List.chain'_cons.mp hchain).1
            have hmv : m ∉ visited := htail m (List.mem_cons_self _ _)
            have hrec : (m :: q2) ∈ simplePathsAux g t fuel m (m :: visited) := by
              apply (ih m (m :: visited) (m :: q2) (List.mem_cons_self _ _)).mpr
              refine ⟨rfl, ?_, ?_, ?_, ?_, ?_⟩
              · rw [List.getLast?_cons_cons] at hlast; exact hlast
              · exact (List.chain'_cons.mp hchain).2
              · exact (List.nodup_cons.mp hnodup).2
              · intro x hx hxm
                rcases List.mem_cons.mp hxm with rfl | hxv
                · exact (List.nodup_cons.mp (List.nodup_cons.mp hnodup).2).1 hx
                · exact htail x (List.mem_cons_of_mem _ hx) hxv
              · simpa using Nat.le_of_succ_le_succ (by simpa using hlen)
            refine List.mem_flatMap.mpr ⟨m, ?_, ?_⟩
            · refine List.mem_filter.mpr ⟨(mem_successors g a m).mpr hRm, ?_⟩
              simp [hmv]
            · exact List.mem_map.mpr ⟨m :: q2, hrec, rfl⟩

lemma mem_allSimplePaths (g : DiGraph) (src target : String) (p : List String)
    (hwf : ∀ e ∈ g.edges, e.1 ∈ g.nodes ∧ e.2 ∈ g.nodes) (hsrc : src ∈ g.nodes) :
    p ∈ allSimplePaths g src target ↔ IsSimplePath g src target p := by
  rw [allSimplePaths, mem_simplePathsAux g target g.nodes.length src [src] p
    (List.mem_singleton.mpr rfl), IsSimplePath]
  constructor
  · rintro ⟨h1, h2, h3, h4, _, _⟩
    exact ⟨h1, h2, h3, h4⟩
  · rintro ⟨h1, h2, h3, h4⟩
    refine ⟨h1, h2, h3, h4, ?_, ?_⟩
    · intro x hx
      rw [List.mem_singleton]
      rintro rfl
      cases p with
      | nil => simp at h1
      | cons a q =>
        simp only [List.head?_cons, Option.some.injEq] at h1
        subst h1
        exact (List.nodup_cons.mp h4).1 (by simpa using hx)
    · have hsub : ∀ x ∈ p, x ∈ g.nodes := by
        intro x hx
        cases p with
        | nil => simp at hx
        | cons a q =>
          simp only [List.head?_cons, Option.some.injEq] at h1
          subst h1
          rcases List.mem_cons.mp hx with rfl | hx2
          · exact hsrc
          · obtain ⟨y, hy⟩ := chain'_tail_has_pred _ h3 x (by simpa using hx2)
            exact (hwf _ hy).2
      exact (List.Nodup.subperm h4 hsub).length_le

/-- Fixture: a tracking graph with one isolated node. -/
def trackG1 : DiGraph := { nodes := ["a"], edges := [] }

/-- Fixture: tracking payload over `trackG1`. -/
def trT1 : ExecTracking :=
  { graph := trackG1, step_times := "st", var_times := "vt"
    step_timestamp := "sts", var_summary := "vs" }

/-- Fixture: a session with execution tracking over `trackG1`. -/
def sesTrack1 : Session :=
  { sesT with execution_tracking := some trT1 }

/-- C7 counterexample: the claim states that every node with out-degree
0 is treated as a leaf; but `disp` classifies with an `elif`, so the
isolated node `a` (in-degree 0 and out-degree 0) goes to the roots and
the computed leaf list is empty — `a` is not treated as a leaf, and the
rendered path list is empty. -/
theorem claim_c7_counterexample :
    "a" ∈ trackG1.nodes ∧ outDegree trackG1 "a" = 0 ∧
    trackingLeaves trackG1 = [] ∧
    disp extT { input := "_", attrs := none, limit := none } sesTrack1 =
      .ok (none, some (.html { step_count := "st", var_count := "vt", step_dt := "sts"
                               var_dt := "vs", paths := [] })) :=
  ⟨by simp [trackG1], rfl, rfl, rfl⟩

/-- C7 (amended): For every DISP of the sentinel `_` with execution
tracking enabled, the rendered HTML interpolates the JSON-serialized
step-timestamps, variable-timestamps and the path list, and the path
list enumerates exactly the simple paths from every root (in-degree 0)
to every leaf — where a node is treated as a leaf only when its
out-degree is 0 AND its in-degree is nonzero; an isolated node is
classified as a root, not a leaf. -/
theorem claim_c7_amended_tracking_display
    (ext : Ext) (stmt : DispStmt) (s : Session) (tr : ExecTracking)
    (hin : stmt.input = "_")
    (htr : s.execution_tracking = some tr)
    (hwf : ∀ e ∈ tr.graph.edges, e.1 ∈ tr.graph.nodes ∧ e.2 ∈ tr.graph.nodes) :
    disp ext stmt s = .ok (none, some (.html (renderTracking ext tr))) ∧
    (renderTracking ext tr).step_count = ext.json_dumps tr.step_times ∧
    (renderTracking ext tr).var_count = ext.json_dumps tr.var_times ∧
    (renderTracking ext tr).step_dt = ext.json_dumps tr.step_timestamp ∧
    (renderTracking ext tr).var_dt = ext.json_dumps tr.var_summary ∧
    (∀ n, n ∈ trackingRoots tr.graph ↔ n ∈ tr.graph.nodes ∧ inDegree tr.graph n = 0) ∧
    (∀ n, n ∈ trackingLeaves tr.graph ↔
      n ∈ tr.graph.nodes ∧ inDegree tr.graph n ≠ 0 ∧ outDegree tr.graph n = 0) ∧
    (∀ p, p ∈ (renderTracking ext tr).paths ↔
      ∃ root leaf, root ∈ trackingRoots tr.graph ∧ leaf ∈ trackingLeaves tr.graph ∧
        IsSimplePath tr.graph root leaf p) := by
  refine ⟨?_, rfl, rfl, rfl, rfl, ?_, ?_, ?_⟩
  · simp [disp, hin, htr]
  · intro n
    simp [trackingRoots, List.mem_filter]
  · intro n
    simp [trackingLeaves, List.mem_filter]
  · intro p
    constructor
    · intro hp
      simp only [renderTracking, dispTrackingPaths, List.mem_flatMap] at hp
      obtain ⟨root, hroot, leaf, hleaf, hpath⟩ := hp
      have hrootn : root ∈ tr.graph.nodes := (List.mem_filter.mp hroot).1
      exact ⟨root, leaf, hroot, hleaf,
        (mem_allSimplePaths tr.graph root leaf p hwf hrootn).mp hpath⟩
    · rintro ⟨root, leaf, hroot, hleaf, hpath⟩
      have hrootn : root ∈ tr.graph.nodes := (List.mem_filter.mp hroot).1
      simp only [renderTracking, dispTrackingPaths, List.mem_flatMap]
      exact ⟨root, hroot, leaf, hleaf,
        (mem_allSimplePaths tr.graph root leaf p hwf hrootn).mpr hpath⟩

/-- Fixture: a two-node tracking graph with a single edge. -/
def trackG2 : DiGraph := { nodes := ["a", "b"], edges := [("a", "b")] }

/-- Fixture: tracking payload over `trackG2`. -/
def trT2 : ExecTracking :=
  { graph := trackG2, step_times := "st", var_times := "vt"
    step_timestamp := "sts", var_summary := "vs" }

/-- Fixture: a session with execution tracking over `trackG2`. -/
def sesTrack2 : Session :=
  { sesT with execution_tracking := some trT2 }

/-- C7 witness: the amended statement at the two-node fixture graph. -/
theorem claim_c7_witness :
    disp extT { input := "_", attrs := none, limit := none } sesTrack2 =
      .ok (none, some (.html (renderTracking extT trT2))) ∧
    (∀ n, n ∈ trackingRoots trackG2 ↔ n ∈ trackG2.nodes ∧ inDegree trackG2 n = 0) ∧
    (∀ n, n ∈ trackingLeaves trackG2 ↔
      n ∈ trackG2.nodes ∧ inDegree trackG2 n ≠ 0 ∧ outDegree trackG2 n = 0) ∧
    (∀ p, p ∈ (renderTracking extT trT2).paths ↔
      ∃ root leaf, root ∈ trackingRoots trackG2 ∧ leaf ∈ trackingLeaves trackG2 ∧
        IsSimplePath trackG2 root leaf p) := by
  have h := claim_c7_amended_tracking_display extT
    { input := "_", attrs := none, limit := none } sesTrack2 trT2
    rfl rfl (by decide)
  exact ⟨h.1, h.2.2.2.2.2.1, h.2.2.2.2.2.2.1, h.2.2.2.2.2.2.2⟩

end Kestrel
